import Mathlib

/-!
# Verification of the clinical-data ingestion pipeline

A shallow embedding, in Lean 4, of the normalization pipeline of the
`ai-web-records-app` backend (the Python sources under
`backend/app/services/ingestion/`), together with theorems settling the
frozen specification claims.

Conventions of the embedding:

* Python's JSON-like values (dicts/lists/strings/numbers) become the
  inductive type `Json`; Python truthiness becomes `Json.truthy`.
* Fallible Python operations (attribute errors, key errors, type errors)
  are modelled in the `Except Unit` monad: `Except.error ()` stands for a
  raised exception, so a per-entry `try/except` in the source becomes a
  `match` on the `Except` value.
* Machine-level concerns (file handles, SQL sessions, async scheduling)
  are abstracted: the database effect of a parser is modelled as the list
  of rows it flushed, in order.
* A handful of support definitions whose Python source file is absent
  from the repository snapshot (`epic_mappers/base.py`, `bulk_inserter.py`
  and four mapper files) are modelled from the specification document and
  from the repository's own fidelity-test column specs; each such
  definition carries a doc comment starting with `Modelled from the spec:`.
-/

namespace IngestSpec

/-- JSON-like Python values as handled by the ingestion pipeline.
Objects are association lists with string keys (Python dicts); numbers are
modelled as rationals (covering the ints and the decimal floats the
pipeline produces). -/
inductive Json where
  | null : Json
  | bool : Bool → Json
  | num : ℚ → Json
  | str : String → Json
  | arr : List Json → Json
  | obj : List (String × Json) → Json
  deriving Repr, BEq

/-- Python truthiness (`bool(x)`) of a JSON-like value: `None`, `False`,
`0`, `""`, `[]` and `{}` are falsy, everything else truthy. -/
def Json.truthy : Json → Bool
  | .null => false
  | .bool b => b
  | .num n => n != 0
  | .str s => !(s.isEmpty)
  | .arr l => !l.isEmpty
  | .obj l => !l.isEmpty

/-- First-match association-list lookup on an object; `none` for a missing
key or a non-object (callers that would raise in Python go through the
`py*` helpers below instead). -/
def Json.find? : Json → String → Option Json
  | .obj l, k => l.lookup k
  | _, _ => none

/-- Truthiness of an `Option Json`, matching Python's `if d.get(k):` where
a missing key yields `None`. -/
def optTruthy : Option Json → Bool
  | none => false
  | some j => j.truthy

/-- Exception-aware computations: `Except.error ()` models a raised Python
exception (AttributeError, KeyError, TypeError, ...). -/
abbrev Py (α : Type) : Type := Except Unit α

/-- `d.get(k)` — association lookup returning `None` (i.e. `Json.null`)
when the key is absent; raises (AttributeError) when the receiver is not
a dict. -/
def pyGet (j : Json) (k : String) : Py Json :=
  match j with
  | .obj l => .ok ((l.lookup k).getD .null)
  | _ => .error ()

/-- `d.get(k, default)` — lookup with a default; raises when the receiver
is not a dict. -/
def pyGetD (j : Json) (k : String) (d : Json) : Py Json :=
  match j with
  | .obj l => .ok ((l.lookup k).getD d)
  | _ => .error ()

/-- `x[0]` — first element of a list, first character of a non-empty
string (as a 1-character string, as Python indexing does); raises on an
empty sequence, and on dicts (KeyError for key `0`) and scalars
(TypeError). -/
def pyIndexZero (j : Json) : Py Json :=
  match j with
  | .arr (x :: _) => .ok x
  | .arr [] => .error ()
  | .str s => if s.isEmpty then .error () else .ok (.str (s.take 1))
  | _ => .error ()

/-- `for x in j` — iteration: lists yield elements, strings yield their
characters as 1-character strings, dicts yield their keys; scalars and
`None` raise TypeError. -/
def pyIter (j : Json) : Py (List Json) :=
  match j with
  | .arr l => .ok l
  | .str s => .ok (s.toList.map fun c => .str (String.singleton c))
  | .obj l => .ok (l.map fun p => .str p.1)
  | _ => .error ()

/-- `isinstance(j, dict)`. -/
def Json.isObj : Json → Bool
  | .obj _ => true
  | _ => false

/-- `isinstance(j, list)`. -/
def Json.isArr : Json → Bool
  | .arr _ => true
  | _ => false

/-- Python `x == "lit"`: equality of a JSON value against a string
(false, without raising, for non-strings). -/
def Json.eqStr : Json → String → Bool
  | .str s, t => s == t
  | _, _ => false

/-- `str.lower()` (the pipeline's vocabularies are ASCII). -/
def pyLower (s : String) : String := String.mk (s.toList.map Char.toLower)

/-- `str.upper()`. -/
def pyUpper (s : String) : String := String.mk (s.toList.map Char.toUpper)

/-- `str.strip()`: drop leading and trailing whitespace. -/
def pyStrip (s : String) : String :=
  String.mk (((s.toList.dropWhile Char.isWhitespace).reverse.dropWhile
    Char.isWhitespace).reverse)

/-- Python `str(x)` of a JSON-like value (scalar cases rendered as CPython
does; containers rendered structurally — the pipeline only ever
stringifies values inside f-strings, where the exact container rendering
is never observed by any claim). -/
def pyStr : Json → String
  | .null => "None"
  | .bool true => "True"
  | .bool false => "False"
  | .num n => toString n
  | .str s => s
  | .arr l => "[" ++ String.intercalate ", " (l.map fun x => reprStr x) ++ "]"
  | .obj l => "\x7b" ++ String.intercalate ", " (l.map fun p => p.1 ++ ": " ++ reprStr p.2) ++ "\x7d"

/-! ## Dates

`datetime` values as produced by `datetime.strptime` / `fromisoformat`:
a naive or offset-aware timestamp.  The model below of CPython's parsing
routines covers the exact format strings the source hands to `strptime`
plus the ISO fallback it applies to strings containing `"T"`. -/

/-- A parsed `datetime.datetime`: calendar fields plus an optional UTC
offset in minutes (`none` = naive). -/
structure PyDateTime where
  year : Nat
  month : Nat
  day : Nat
  hour : Nat
  minute : Nat
  second : Nat
  usec : Nat
  tzmin : Option Int
  deriving Repr, DecidableEq

/-- Gregorian leap-year test (as `datetime` validates days). -/
def isLeapYear (y : Nat) : Bool :=
  (y % 4 == 0 && y % 100 != 0) || (y % 400 == 0)

/-- Days in a month, used by `datetime`'s constructor validation. -/
def daysInMonth (y m : Nat) : Nat :=
  if m == 2 then (if isLeapYear y then 29 else 28)
  else if m == 4 || m == 6 || m == 9 || m == 11 then 30
  else 31

/-- Field validation performed by the `datetime` constructor: any
out-of-range component makes `strptime` raise `ValueError`. -/
def validDateTime (year month day hour minute second usec : Nat) : Bool :=
  1 ≤ year && year ≤ 9999 &&
  1 ≤ month && month ≤ 12 &&
  1 ≤ day && day ≤ daysInMonth year month &&
  hour ≤ 23 && minute ≤ 59 && second ≤ 59 && usec ≤ 999999

/-- Take exactly `n` leading decimal digits, returning their value and the
rest of the input. -/
def takeDigitsExact : Nat → List Char → Option (Nat × List Char)
  | 0, cs => some (0, cs)
  | n + 1, c :: cs =>
      if c.isDigit then
        match takeDigitsExact n cs with
        | some (v, rest) => some ((c.toNat - '0'.toNat) * 10 ^ n + v, rest)
        | none => none
      else none
  | _ + 1, [] => none

/-- Take one or two leading decimal digits (greedy), as the `\d{1,2}`
pattern CPython's `strptime` uses for `%m`, `%d`, `%H`, `%M`, `%S`. -/
def takeDigits12 : List Char → Option (Nat × List Char)
  | c :: d :: cs =>
      if c.isDigit then
        if d.isDigit then some ((c.toNat - '0'.toNat) * 10 + (d.toNat - '0'.toNat), cs)
        else some (c.toNat - '0'.toNat, d :: cs)
      else none
  | [c] => if c.isDigit then some (c.toNat - '0'.toNat, []) else none
  | [] => none

/-- Take one to `n` leading digits (greedy), returning the digit string
and the rest; used for `%f` (`\d{1,6}`). -/
def takeDigitsUpTo : Nat → List Char → List Char × List Char
  | 0, cs => ([], cs)
  | n + 1, c :: cs =>
      if c.isDigit then
        match takeDigitsUpTo n cs with
        | (ds, rest) => (c :: ds, rest)
      else ([], c :: cs)
  | _ + 1, [] => ([], [])

/-- Numeric value of a digit string. -/
def digitsVal (ds : List Char) : Nat :=
  ds.foldl (fun a c => a * 10 + (c.toNat - '0'.toNat)) 0

/-- Microseconds denoted by a `%f` digit string (CPython left-pads to six
digits: `.5` means 500000µs). -/
def fracToUsec (ds : List Char) : Nat :=
  digitsVal ds * 10 ^ (6 - ds.length)

/-- Expect a literal character. -/
def expectChar (c : Char) : List Char → Option (List Char)
  | d :: cs => if d == c then some cs else none
  | [] => none

/-- `%z` as matched by CPython's `strptime`: `Z` (UTC) or
`±HH[:]MM[[:]SS[.ffffff]]`; returns the offset in minutes (sub-minute
components are validated but, as no source format stores them, dropped). -/
def parseTzOffset : List Char → Option (Int × List Char)
  | 'Z' :: cs => some (0, cs)
  | c :: cs =>
      if c == '+' || c == '-' then
        match takeDigitsExact 2 cs with
        | some (hh, rest) =>
            let rest := (expectChar ':' rest).getD rest
            match takeDigitsExact 2 rest with
            | some (mm, rest2) =>
                if hh ≤ 23 && mm ≤ 59 then
                  let sgn : Int := if c == '+' then 1 else -1
                  -- optional seconds (and fraction) component
                  let rest3 := (expectChar ':' rest2).getD rest2
                  match takeDigitsExact 2 rest3 with
                  | some (ss, rest4) =>
                      if ss ≤ 59 then
                        match rest4 with
                        | '.' :: r5 =>
                            match takeDigitsUpTo 6 r5 with
                            | ([], _) => none
                            | (_, r6) => some (sgn * (hh * 60 + mm), r6)
                        | _ => some (sgn * (hh * 60 + mm), rest4)
                      else none
                  | none => some (sgn * (hh * 60 + mm), rest2)
                else none
            | none => none
        | none => none
      else none
  | [] => none

/-- `datetime.strptime(value, "%Y-%m-%dT%H:%M:%S")` core: date and time
with literal separators; returns the fields and the unconsumed input. -/
def parseYmdHmsCore (cs : List Char) :
    Option (Nat × Nat × Nat × Nat × Nat × Nat × List Char) := do
  let (y, cs) ← takeDigitsExact 4 cs
  let cs ← expectChar '-' cs
  let (mo, cs) ← takeDigits12 cs
  let cs ← expectChar '-' cs
  let (d, cs) ← takeDigits12 cs
  let cs ← expectChar 'T' cs
  let (h, cs) ← takeDigits12 cs
  let cs ← expectChar ':' cs
  let (mi, cs) ← takeDigits12 cs
  let cs ← expectChar ':' cs
  let (s, cs) ← takeDigits12 cs
  return (y, mo, d, h, mi, s, cs)

/-- Build the validated `PyDateTime`, or `none` (ValueError). -/
def mkDateTime (y mo d h mi s us : Nat) (tz : Option Int) : Option PyDateTime :=
  if validDateTime y mo d h mi s us then
    some ⟨y, mo, d, h, mi, s, us, tz⟩
  else none

/-- `strptime` with format `"%Y-%m-%dT%H:%M:%S%z"`. -/
def strptimeIsoTz (cs : List Char) : Option PyDateTime := do
  let (y, mo, d, h, mi, s, cs) ← parseYmdHmsCore cs
  let (tz, cs) ← parseTzOffset cs
  if cs.isEmpty then mkDateTime y mo d h mi s 0 (some tz) else none

/-- `strptime` with format `"%Y-%m-%dT%H:%M:%S.%f%z"`. -/
def strptimeIsoFracTz (cs : List Char) : Option PyDateTime := do
  let (y, mo, d, h, mi, s, cs) ← parseYmdHmsCore cs
  let cs ← expectChar '.' cs
  match takeDigitsUpTo 6 cs with
  | ([], _) => none
  | (ds, cs) => do
      let (tz, cs) ← parseTzOffset cs
      if cs.isEmpty then mkDateTime y mo d h mi s (fracToUsec ds) (some tz) else none

/-- `strptime` with format `"%Y-%m-%dT%H:%M:%S"`. -/
def strptimeIso (cs : List Char) : Option PyDateTime := do
  let (y, mo, d, h, mi, s, cs) ← parseYmdHmsCore cs
  if cs.isEmpty then mkDateTime y mo d h mi s 0 none else none

/-- `strptime` with format `"%Y-%m-%dT%H:%M:%S.%f"`. -/
def strptimeIsoFrac (cs : List Char) : Option PyDateTime := do
  let (y, mo, d, h, mi, s, cs) ← parseYmdHmsCore cs
  let cs ← expectChar '.' cs
  match takeDigitsUpTo 6 cs with
  | ([], _) => none
  | (ds, cs) => if cs.isEmpty then mkDateTime y mo d h mi s (fracToUsec ds) none else none

/-- `strptime` with format `"%Y-%m-%d"`. -/
def strptimeYmd (cs : List Char) : Option PyDateTime := do
  let (y, cs) ← takeDigitsExact 4 cs
  let cs ← expectChar '-' cs
  let (mo, cs) ← takeDigits12 cs
  let cs ← expectChar '-' cs
  let (d, cs) ← takeDigits12 cs
  if cs.isEmpty then mkDateTime y mo d 0 0 0 0 none else none

/-- `strptime` with format `"%Y-%m"`. -/
def strptimeYm (cs : List Char) : Option PyDateTime := do
  let (y, cs) ← takeDigitsExact 4 cs
  let cs ← expectChar '-' cs
  let (mo, cs) ← takeDigits12 cs
  if cs.isEmpty then mkDateTime y mo 1 0 0 0 0 none else none

/-- `strptime` with format `"%Y"`. -/
def strptimeY (cs : List Char) : Option PyDateTime := do
  let (y, cs) ← takeDigitsExact 4 cs
  if cs.isEmpty then mkDateTime y 1 1 0 0 0 0 none else none

/-- Optional-time tail of `datetime.fromisoformat`:
`HH[:MM[:SS[.ffffff]]][±HH:MM]`. -/
def fromIsoTime (y mo d : Nat) (cs : List Char) : Option PyDateTime := do
  let (h, cs) ← takeDigits12 cs
  match cs with
  | [] => mkDateTime y mo d h 0 0 0 none
  | _ =>
    let withMin : Option PyDateTime := do
      let cs ← expectChar ':' cs
      let (mi, cs) ← takeDigits12 cs
      match cs with
      | [] => mkDateTime y mo d h mi 0 0 none
      | _ =>
        let withSec : Option PyDateTime := do
          let cs ← expectChar ':' cs
          let (s, cs) ← takeDigits12 cs
          match cs with
          | [] => mkDateTime y mo d h mi s 0 none
          | '.' :: cs' =>
              match takeDigitsUpTo 6 cs' with
              | ([], _) => none
              | (ds, cs'') =>
                  match cs'' with
                  | [] => mkDateTime y mo d h mi s (fracToUsec ds) none
                  | _ => do
                      let (tz, cs3) ← parseTzOffset cs''
                      if cs3.isEmpty then mkDateTime y mo d h mi s (fracToUsec ds) (some tz)
                      else none
          | _ => do
              let (tz, cs2) ← parseTzOffset cs
              if cs2.isEmpty then mkDateTime y mo d h mi s 0 (some tz) else none
        withSec
    match withMin with
    | some dt => some dt
    | none => do
        let (tz, cs2) ← parseTzOffset cs
        if cs2.isEmpty then mkDateTime y mo d h 0 0 0 (some tz) else none

/-- Model of `datetime.fromisoformat` on the strings the fallback branch
can still receive (a `YYYY-MM-DD` date, a `T` or space separator, and an
optional time with optional offset). -/
def pyFromIso (cs : List Char) : Option PyDateTime := do
  let (y, cs) ← takeDigitsExact 4 cs
  let cs ← expectChar '-' cs
  let (mo, cs) ← takeDigitsExact 2 cs
  let cs ← expectChar '-' cs
  let (d, cs) ← takeDigitsExact 2 cs
  match cs with
  | [] => mkDateTime y mo d 0 0 0 0 none
  | sep :: rest =>
      if sep == 'T' || sep == ' ' then fromIsoTime y mo d rest else none

/-- `_parse_fhir_date` (fhir_parser.py lines 75–103): try the seven
`strptime` formats in order; if all fail and the string contains `"T"`,
normalize a trailing `"Z"` to `"+00:00"` and try `fromisoformat`;
unparsable or blank input yields `none`, never an exception. -/
def parseFhirDate (value : String) : Option PyDateTime :=
  if value.isEmpty then none
  else
    let cs := value.toList
    (strptimeIsoTz cs).orElse fun _ =>
    (strptimeIsoFracTz cs).orElse fun _ =>
    (strptimeIso cs).orElse fun _ =>
    (strptimeIsoFrac cs).orElse fun _ =>
    (strptimeYmd cs).orElse fun _ =>
    (strptimeYm cs).orElse fun _ =>
    (strptimeY cs).orElse fun _ =>
      if value.toList.contains 'T' then
        let clean := if value.toList.getLast? == some 'Z' then value.dropRight 1 ++ "+00:00" else value
        pyFromIso clean.toList
      else none

/-- `_parse_fhir_date` applied to a JSON value: strings are parsed; a
falsy non-string returns `None` at the `if not value` guard; a truthy
non-string reaches `strptime` and raises `TypeError`. -/
def parseFhirDateJson (v : Json) : Py (Option PyDateTime) :=
  match v with
  | .str s => .ok (parseFhirDate s)
  | _ => if v.truthy then .error () else .ok none

/-! ## Resource-metadata extractors (fhir_parser.py) -/

/-- The ordered candidate date fields of `extract_effective_date`
(fhir_parser.py lines 40–51). -/
def dateFields : List String :=
  ["effectiveDateTime", "issued", "date", "authoredOn", "occurrenceDateTime",
   "recordedDate", "onsetDateTime", "created", "sent", "start"]

/-- The `for field in date_fields` loop: value of the first candidate
field whose value is truthy, if any. -/
def firstTruthyField (l : List (String × Json)) : List String → Option Json
  | [] => none
  | f :: fs =>
      match l.lookup f with
      | some v => if v.truthy then some v else firstTruthyField l fs
      | none => firstTruthyField l fs

/-- Python `a or b` over two `.get` results. -/
def pyOrJson (a b : Json) : Json := if a.truthy then a else b

/-- The `meta.lastUpdated` fallback of `extract_effective_date`
(fhir_parser.py lines 61–64). -/
def metaLastUpdatedBranch (l : List (String × Json)) : Py (Option PyDateTime) := do
  let m := (l.lookup "meta").getD (.obj [])
  let lu ← pyGet m "lastUpdated"
  if lu.truthy then parseFhirDateJson lu else .ok none

/-- `extract_effective_date` (fhir_parser.py lines 38–64): probe the
candidate fields in order and return the parse of the first truthy one;
otherwise try `effectivePeriod`/`period` start, then `meta.lastUpdated`;
otherwise `None`. -/
def extractEffectiveDate (resource : Json) : Py (Option PyDateTime) :=
  match resource with
  | .obj l =>
      match firstTruthyField l dateFields with
      | some v => parseFhirDateJson v
      | none =>
          let period := pyOrJson ((l.lookup "effectivePeriod").getD .null)
                                 ((l.lookup "period").getD .null)
          if period.truthy then do
            let st ← pyGet period "start"
            if st.truthy then parseFhirDateJson st
            else metaLastUpdatedBranch l
          else metaLastUpdatedBranch l
  | _ => .error ()

/-- `extract_effective_date_end` (fhir_parser.py lines 67–72). -/
def extractEffectiveDateEnd (resource : Json) : Py (Option PyDateTime) :=
  match resource with
  | .obj l =>
      let period := pyOrJson ((l.lookup "effectivePeriod").getD .null)
                             ((l.lookup "period").getD .null)
      if period.truthy then do
        let e ← pyGet period "end"
        if e.truthy then parseFhirDateJson e else .ok none
      else .ok none
  | _ => .error ()

/-- The shared `code_obj` derivation of `extract_coding` and
`build_display_text` (fhir_parser.py lines 108–115 and 160–166): the
`code` field if truthy, else a `type` dict, else the first element of a
non-empty `type` list when that element is a dict, else the original
(falsy) `code` value. -/
def codeOrTypeObj (l : List (String × Json)) : Json :=
  let code := (l.lookup "code").getD .null
  if code.truthy then code
  else
    match (l.lookup "type").getD .null with
    | .obj t => .obj t
    | .arr (x :: _) => if x.isObj then x else code
    | _ => code

/-- `extract_coding` (fhir_parser.py lines 106–127): `(system, code,
display)` from `coding[0]`, else free text, else all `None`. -/
def extractCoding (resource : Json) : Py (Json × Json × Json) :=
  match resource with
  | .obj l =>
      match codeOrTypeObj l with
      | .obj cl =>
          if !(Json.obj cl).truthy then .ok (.null, .null, .null)
          else
            let codings := (cl.lookup "coding").getD (.arr [])
            if codings.truthy then do
              let c ← pyIndexZero codings
              let sys ← pyGet c "system"
              let code ← pyGet c "code"
              let disp ← pyGet c "display"
              .ok (sys, code, disp)
            else
              let text := (cl.lookup "text").getD .null
              if text.truthy then .ok (.null, .null, text)
              else .ok (.null, .null, .null)
      | _ => .ok (.null, .null, .null)
  | _ => .error ()

/-- The inner `for c in codings` loop of `extract_categories`
(fhir_parser.py lines 137–139): append `c["code"]` for each coding with a
truthy `code`. -/
def categoryCodingLoop : List Json → List Json → Py (List Json)
  | [], acc => .ok acc
  | c :: cs, acc => do
      let code ← pyGet c "code"
      categoryCodingLoop cs (if code.truthy then acc ++ [code] else acc)

/-- The outer `for cat in categories` loop of `extract_categories`
(fhir_parser.py lines 134–141). -/
def categoryLoop : List Json → List Json → Py (List Json)
  | [], acc => .ok acc
  | cat :: cats, acc => do
      let acc' ← (match cat with
        | .obj cl => do
            let codings := (cl.lookup "coding").getD (.arr [])
            let cs ← pyIter codings
            let acc2 ← categoryCodingLoop cs acc
            let text := (cl.lookup "text").getD .null
            if !codings.truthy && text.truthy then pure (acc2 ++ [text]) else pure acc2
        | _ => pure acc)
      categoryLoop cats acc'

/-- `extract_categories` (fhir_parser.py lines 130–142): flatten category
coding codes (with free-text fallback per category); `result or None`. -/
def extractCategories (resource : Json) : Py Json :=
  match resource with
  | .obj l => do
      let categories := (l.lookup "category").getD (.arr [])
      let cats ← pyIter categories
      let result ← categoryLoop cats []
      if result.isEmpty then .ok .null else .ok (.arr result)
  | _ => .error ()

/-- `extract_status` (fhir_parser.py lines 145–155): top-level `status`
if truthy, else `clinicalStatus.coding[0].code`, else `None`. -/
def extractStatus (resource : Json) : Py Json :=
  match resource with
  | .obj l =>
      let status := (l.lookup "status").getD .null
      if status.truthy then .ok status
      else
        match (l.lookup "clinicalStatus").getD .null with
        | .obj cl =>
            if !(Json.obj cl).truthy then .ok .null
            else
              let codings := (cl.lookup "coding").getD (.arr [])
              if codings.truthy then do
                let c ← pyIndexZero codings
                pyGet c "code"
              else .ok .null
        | _ => .ok .null
  | _ => .error ()

/-- The `for c in codings: if c.get("display"): return c["display"]`
pattern of `build_display_text`: first truthy display, if any. -/
def firstDisplayLoop : List Json → Py (Option Json)
  | [] => .ok none
  | c :: cs => do
      let d ← pyGet c "display"
      if d.truthy then .ok (some d) else firstDisplayLoop cs

/-- `content[:100]` / `x[:100]` — string and list slices succeed, other
receivers raise TypeError. -/
def pySliceTo100 (j : Json) : Py Json :=
  match j with
  | .str s => .ok (.str (String.mk (s.toList.take 100)))
  | .arr xs => .ok (.arr (xs.take 100))
  | _ => .error ()

/-- `build_display_text` for `Encounter` when the `type` probe produced
no text (fhir_parser.py lines 182–184): a class code inside an
`"Encounter (...)"` label, else the bare `"Encounter"`. -/
def displayEncounterCls (l : List (String × Json)) : Py Json :=
  let cls := (l.lookup "class").getD (.obj [])
  let code := match cls with
    | .obj cl2 => (cl2.lookup "code").getD (.str "")
    | _ => Json.str ""
  if code.truthy then .ok (.str ("Encounter (" ++ pyStr code ++ ")"))
  else .ok (.str "Encounter")

/-- The `Encounter` branch of `build_display_text` (fhir_parser.py lines
176–184). -/
def displayEncounter (l : List (String × Json)) : Py Json :=
  let encType := (l.lookup "type").getD (.arr [])
  if encType.truthy then
    match pyIndexZero encType with
    | .error e => .error e
    | .ok e0 =>
        match e0 with
        | .obj el =>
            let txt := (el.lookup "text").getD .null
            if txt.truthy then .ok txt else displayEncounterCls l
        | _ => displayEncounterCls l
  else displayEncounterCls l

/-- The `Immunization` branch of `build_display_text` (fhir_parser.py
lines 186–195). -/
def displayImmunization (l : List (String × Json)) : Py Json :=
  let vaccine := (l.lookup "vaccineCode").getD (.obj [])
  match pyGet vaccine "text" with
  | .error e => .error e
  | .ok text =>
      if text.truthy then .ok text
      else
        match pyGetD vaccine "coding" (.arr []) with
        | .error e => .error e
        | .ok codings =>
            match pyIter codings with
            | .error e => .error e
            | .ok cs =>
                match firstDisplayLoop cs with
                | .error e => .error e
                | .ok (some d) => .ok d
                | .ok none => .ok (.str "Immunization")

/-- The `MedicationRequest` branch of `build_display_text`
(fhir_parser.py lines 197–209): note the unguarded
`dosage[0].get("text", "Medication")` fall-through. -/
def displayMedicationRequest (l : List (String × Json)) : Py Json :=
  let medRef := (l.lookup "medicationReference").getD (.obj [])
  match pyGet medRef "display" with
  | .error e => .error e
  | .ok display =>
      if display.truthy then .ok display
      else
        let medCC := (l.lookup "medicationCodeableConcept").getD (.obj [])
        match pyGet medCC "text" with
        | .error e => .error e
        | .ok text =>
            if text.truthy then .ok text
            else
              let dosage := (l.lookup "dosageInstruction").getD (.arr [])
              if dosage.truthy then
                match pyIndexZero dosage with
                | .error e => .error e
                | .ok d0 => pyGetD d0 "text" (.str "Medication")
              else .ok (.str "Medication Request")

/-- The `Communication` branch of `build_display_text` (fhir_parser.py
lines 217–223). -/
def displayCommunication (l : List (String × Json)) : Py Json :=
  let payload := (l.lookup "payload").getD (.arr [])
  if payload.truthy then
    match pyIndexZero payload with
    | .error e => .error e
    | .ok p0 =>
        match pyGetD p0 "contentString" (.str "") with
        | .error e => .error e
        | .ok content =>
            if content.truthy then pySliceTo100 content
            else .ok (.str "Communication")
  else .ok (.str "Communication")

/-- The `FamilyMemberHistory` branch of `build_display_text`
(fhir_parser.py lines 244–253). -/
def displayFamilyHistory (l : List (String × Json)) : Py Json :=
  let conditions := (l.lookup "condition").getD (.arr [])
  if conditions.truthy then
    match pyIndexZero conditions with
    | .error e => .error e
    | .ok c0 =>
        match c0 with
        | .obj c0l =>
            match (c0l.lookup "code").getD (.obj []) with
            | .obj codel =>
                let text := (codel.lookup "text").getD .null
                if text.truthy then
                  match (l.lookup "relationship").getD (.obj []) with
                  | .obj rl =>
                      let relText := (rl.lookup "text").getD .null
                      if relText.truthy then
                        .ok (.str (pyStr text ++ " (" ++ pyStr relText ++ ")"))
                      else .ok text
                  | _ => .ok text
                else .ok (.str "Family History")
            | _ => .ok (.str "Family History")
        | _ => .ok (.str "Family History")
  else .ok (.str "Family History")

/-- The `ImmunizationRecommendation` branch of `build_display_text`
(fhir_parser.py lines 261–272). -/
def displayImmunizationRec (l : List (String × Json)) : Py Json :=
  let recs := (l.lookup "recommendation").getD (.arr [])
  if recs.truthy then
    match pyIndexZero recs with
    | .error e => .error e
    | .ok r0 =>
        match pyGetD r0 "vaccineCode" (.arr []) with
        | .error e => .error e
        | .ok vaccine =>
            match vaccine with
            | .arr (v0 :: _) =>
                match pyGet v0 "text" with
                | .error e => .error e
                | .ok tx =>
                    if tx.truthy then .ok tx
                    else
                      match pyGetD v0 "coding" (.arr []) with
                      | .error e => .error e
                      | .ok codings =>
                          match pyIter codings with
                          | .error e => .error e
                          | .ok cs =>
                              match firstDisplayLoop cs with
                              | .error e => .error e
                              | .ok (some d) => .ok d
                              | .ok none => .ok (.str "Immunization Recommendation")
            | _ => .ok (.str "Immunization Recommendation")
  else .ok (.str "Immunization Recommendation")

/-- The resource-kind-specific branches of `build_display_text`
(fhir_parser.py lines 176–280), reached when the leading code/type block
produced no text. -/
def displayKindBranch (l : List (String × Json)) (resource_type : String) : Py Json :=
  if resource_type == "Encounter" then displayEncounter l
  else if resource_type == "Immunization" then displayImmunization l
  else if resource_type == "MedicationRequest" then displayMedicationRequest l
  else if resource_type == "DocumentReference" then
    let desc := (l.lookup "description").getD .null
    if desc.truthy then .ok desc else .ok (.str "Document")
  else if resource_type == "Communication" then displayCommunication l
  else if resource_type == "Appointment" then
    let desc := (l.lookup "description").getD .null
    if desc.truthy then .ok desc else .ok (.str "Appointment")
  else if resource_type == "ServiceRequest" then
    let codeObj := (l.lookup "code").getD (.obj [])
    match pyGet codeObj "text" with
    | .error e => .error e
    | .ok text => if text.truthy then .ok text else .ok (.str "Service Request")
  else if resource_type == "CarePlan" then
    let title := (l.lookup "title").getD .null
    if title.truthy then .ok title else .ok (.str "Care Plan")
  else if resource_type == "FamilyMemberHistory" then displayFamilyHistory l
  else if resource_type == "CareTeam" then
    let name := (l.lookup "name").getD .null
    if name.truthy then .ok name else .ok (.str "Care Team")
  else if resource_type == "ImmunizationRecommendation" then displayImmunizationRec l
  else if resource_type == "QuestionnaireResponse" then
    let q := (l.lookup "questionnaire").getD .null
    if q.truthy then .ok (.str ("Questionnaire: " ++ pyStr q))
    else .ok (.str "Questionnaire Response")
  else .ok (.str resource_type)

/-- The leading code/type block of `build_display_text` (fhir_parser.py
lines 160–174): the code object's truthy `text`, else its first truthy
coding `display`, else nothing. -/
def displayCodeHead (l : List (String × Json)) : Py (Option Json) :=
  match codeOrTypeObj l with
  | .obj cl =>
      if !(Json.obj cl).truthy then .ok none
      else
        let text := (cl.lookup "text").getD .null
        if text.truthy then .ok (some text)
        else
          match pyIter ((cl.lookup "coding").getD (.arr [])) with
          | .error e => .error e
          | .ok cs => firstDisplayLoop cs
  | _ => .ok none

/-- `build_display_text` (fhir_parser.py lines 158–280): code/type text,
else first coding display, else the kind-specific fallback chain ending
in the bare resource-kind string. -/
def buildDisplayText (resource : Json) (resource_type : String) : Py Json :=
  match resource with
  | .obj l =>
      match displayCodeHead l with
      | .error e => .error e
      | .ok (some t) => .ok t
      | .ok none => displayKindBranch l resource_type
  | _ => .error ()

/-! ## `map_fhir_resource` -/

/-- `SUPPORTED_RESOURCE_TYPES` (fhir_parser.py lines 16–35). -/
def supportedResourceTypes : List (String × String) :=
  [("Condition", "condition"),
   ("Observation", "observation"),
   ("MedicationRequest", "medication"),
   ("MedicationStatement", "medication"),
   ("AllergyIntolerance", "allergy"),
   ("Procedure", "procedure"),
   ("Encounter", "encounter"),
   ("Immunization", "immunization"),
   ("DiagnosticReport", "diagnostic_report"),
   ("DocumentReference", "document"),
   ("ImagingStudy", "imaging"),
   ("ServiceRequest", "service_request"),
   ("CarePlan", "care_plan"),
   ("Communication", "communication"),
   ("Appointment", "appointment"),
   ("CareTeam", "care_team"),
   ("ImmunizationRecommendation", "immunization"),
   ("QuestionnaireResponse", "questionnaire_response")]

/-- The row handed to the bulk inserter for one normalized resource (the
dict built by `map_fhir_resource`, fhir_parser.py lines 297–310). -/
structure HealthRecord where
  record_type : String
  fhir_resource_type : String
  fhir_resource : Json
  source_format : String
  effective_date : Option PyDateTime
  effective_date_end : Option PyDateTime
  status : Json
  category : Json
  code_system : Json
  code_value : Json
  code_display : Json
  display_text : Json
  deriving Repr, BEq

/-- `map_fhir_resource` (fhir_parser.py lines 283–310): `None` for
unsupported or missing `resourceType`, else the populated record row.
Dict-membership of an unhashable value raises TypeError. -/
def mapFhirResource (resource : Json) : Py (Option HealthRecord) := do
  let rt ← pyGet resource "resourceType"
  if !rt.truthy then .ok none
  else do
    let inSupported ← (match rt with
      | .str s => pure ((supportedResourceTypes.lookup s).isSome)
      | .arr _ => Except.error ()
      | .obj _ => Except.error ()
      | _ => pure false)
    if !inSupported then .ok none
    else
      match rt with
      | .str s => do
          let record_type := (supportedResourceTypes.lookup s).getD ""
          let coding ← extractCoding resource
          let categories ← extractCategories resource
          let status ← extractStatus resource
          let effective_date ← extractEffectiveDate resource
          let effective_date_end ← extractEffectiveDateEnd resource
          let display_text ← buildDisplayText resource s
          .ok (some
            { record_type := record_type
              fhir_resource_type := s
              fhir_resource := resource
              source_format := "fhir_r4"
              effective_date := effective_date
              effective_date_end := effective_date_end
              status := status
              category := categories
              code_system := coding.1
              code_value := coding.2.1
              code_display := coding.2.2
              display_text := display_text })
      | _ => .ok none

/-! ## Bundle parsing (`_parse_small_bundle` / `_parse_large_bundle`) -/

/-- `len(x)` — defined for sequences and dicts, TypeError otherwise. -/
def pyLen (j : Json) : Py Nat :=
  match j with
  | .arr l => .ok l.length
  | .str s => .ok s.length
  | .obj l => .ok l.length
  | _ => .error ()

/-- A fully attributed row as handed to the bulk inserter: the mapped
record plus the job context the parsers attach (`user_id`, `patient_id`,
`source_file_id`, fhir_parser.py lines 387–389 and 446–448).  UUIDs are
abstracted as naturals. -/
structure InsertRow where
  record : HealthRecord
  user_id : Nat
  patient_id : Nat
  source_file_id : Option Nat
  deriving Repr, BEq

/-- The stats dict a bundle parse returns, together with the rows flushed
to the database (in flush order) as the model of the parser's database
effect.  `errors` keeps the `entry_index` of each per-entry error. -/
structure BundleStats where
  total_entries : Nat
  records_inserted : Nat
  records_skipped : Nat
  errors : List Nat
  inserted : List InsertRow
  deriving Repr, BEq

/-- Modelled from the spec: `bulk_insert_records` lives in
`bulk_inserter.py`, which is absent from the repository snapshot; §4.4
specifies `insertBatch(rows) → insertedCount` as one bulk write per call,
so the model returns the batch's length. -/
def bulkInsertRecords (batch : List InsertRow) : Nat := batch.length

/-- `stats["records_skipped"] += 1`. -/
def skipOne (stats : BundleStats) : BundleStats :=
  { stats with records_skipped := stats.records_skipped + 1 }

/-- `stats["errors"].append({"entry_index": i, "error": str(e)})`. -/
def recordEntryError (i : Nat) (stats : BundleStats) : BundleStats :=
  { stats with errors := stats.errors ++ [i] }

/-- The in-loop flush (`if len(batch) >= batch_size:` — verbatim in both
bundle parsers, fhir_parser.py lines 397–403 and 456–466): insert the
batch, add the returned count, clear the batch, commit. -/
def flushIfFull (batchSize : Nat) (batch : List InsertRow) (stats : BundleStats) :
    List InsertRow × BundleStats :=
  if batchSize ≤ batch.length then
    ([], { stats with records_inserted := stats.records_inserted + bulkInsertRecords batch
                      inserted := stats.inserted ++ batch })
  else (batch, stats)

/-- The end-of-stream flush (`if batch:` — verbatim in both bundle
parsers, fhir_parser.py lines 405–409 and 468–472). -/
def finalFlush (batch : List InsertRow) (stats : BundleStats) : BundleStats :=
  if !batch.isEmpty then
    { stats with records_inserted := stats.records_inserted + bulkInsertRecords batch
                 inserted := stats.inserted ++ batch }
  else stats

/-- The entry loop of `_parse_small_bundle` (fhir_parser.py lines
373–409): skip entries without a truthy resource and `Patient` entries,
map the rest with a per-entry `try/except`, batch and flush. -/
def smallBundleLoop (u p : Nat) (s : Option Nat) (bs : Nat) :
    List Json → Nat → List InsertRow → BundleStats → Py BundleStats
  | [], _, batch, stats => .ok (finalFlush batch stats)
  | entry :: rest, i, batch, stats =>
      match pyGet entry "resource" with
      | .error e => .error e
      | .ok resource =>
        if !resource.truthy then
          smallBundleLoop u p s bs rest (i + 1) batch (skipOne stats)
        else
          match pyGet resource "resourceType" with
          | .error e => .error e
          | .ok rt =>
            if rt.eqStr "Patient" then
              smallBundleLoop u p s bs rest (i + 1) batch (skipOne stats)
            else
              match mapFhirResource resource with
              | .error _ =>
                  smallBundleLoop u p s bs rest (i + 1) batch (recordEntryError i stats)
              | .ok mapped =>
                  let st1 :=
                    match mapped with
                    | some r => (batch ++ [({ record := r, user_id := u, patient_id := p, source_file_id := s } : InsertRow)], stats)
                    | none => (batch, skipOne stats)
                  let st2 := flushIfFull bs st1.1 st1.2
                  smallBundleLoop u p s bs rest (i + 1) st2.1 st2.2

/-- `_parse_small_bundle` after `json.load` (fhir_parser.py lines
349–411): a `Bundle` contributes its `entry` list, any other document is
wrapped as a single synthetic entry; `total_entries` is set to
`len(entries)` up front. -/
def parseSmallBundle (data : Json) (u p : Nat) (s : Option Nat) (bs : Nat) :
    Py BundleStats :=
  match pyGet data "resourceType" with
  | .error e => .error e
  | .ok rt =>
      match (if rt.eqStr "Bundle" then pyGetD data "entry" (.arr [])
             else .ok (Json.arr [Json.obj [("resource", data)]])) with
      | .error e => .error e
      | .ok entries =>
          match pyLen entries with
          | .error e => .error e
          | .ok n =>
              match pyIter entries with
              | .error e => .error e
              | .ok es => smallBundleLoop u p s bs es 0 [] ⟨n, 0, 0, [], []⟩

/-- The entry stream `ijson.items(f, "entry.item")` of
`_parse_large_bundle`: the elements of the document's top-level `entry`
array; an absent or non-array `entry` yields no items. -/
def ijsonEntryItems (data : Json) : List Json :=
  match data with
  | .obj l =>
      match l.lookup "entry" with
      | some (.arr es) => es
      | _ => []
  | _ => []

/-- The entry loop of `_parse_large_bundle` (fhir_parser.py lines
431–472): identical to the small-bundle loop except that
`total_entries` is incremented as each streamed entry arrives. -/
def largeBundleLoop (u p : Nat) (s : Option Nat) (bs : Nat) :
    List Json → Nat → List InsertRow → BundleStats → Py BundleStats
  | [], _, batch, stats => .ok (finalFlush batch stats)
  | entry :: rest, i, batch, stats =>
      let stats := { stats with total_entries := stats.total_entries + 1 }
      match pyGet entry "resource" with
      | .error e => .error e
      | .ok resource =>
        if !resource.truthy then
          largeBundleLoop u p s bs rest (i + 1) batch (skipOne stats)
        else
          match pyGet resource "resourceType" with
          | .error e => .error e
          | .ok rt =>
            if rt.eqStr "Patient" then
              largeBundleLoop u p s bs rest (i + 1) batch (skipOne stats)
            else
              match mapFhirResource resource with
              | .error _ =>
                  largeBundleLoop u p s bs rest (i + 1) batch (recordEntryError i stats)
              | .ok mapped =>
                  let st1 :=
                    match mapped with
                    | some r => (batch ++ [({ record := r, user_id := u, patient_id := p, source_file_id := s } : InsertRow)], stats)
                    | none => (batch, skipOne stats)
                  let st2 := flushIfFull bs st1.1 st1.2
                  largeBundleLoop u p s bs rest (i + 1) st2.1 st2.2

/-- `_parse_large_bundle` (fhir_parser.py lines 414–474). -/
def parseLargeBundle (data : Json) (u p : Nat) (s : Option Nat) (bs : Nat) :
    Py BundleStats :=
  largeBundleLoop u p s bs (ijsonEntryItems data) 0 [] ⟨0, 0, 0, [], []⟩

/-! ## Epic table mappers (`epic_mappers/`) -/

/-- A TSV row as produced by `csv.DictReader`: column name → cell text. -/
abbrev EpicRow := List (String × String)

/-- Modelled from the spec: `EpicMapper.safe_get` from
`epic_mappers/base.py`, a file absent from the repository snapshot.  §3
and §4.1 treat a gate column as skippable when "empty/blank", so the
model returns the row's cell with surrounding whitespace stripped, and
the empty string for a missing column. -/
def safeGet (row : EpicRow) (col : String) : String :=
  pyStrip ((row.lookup col).getD "")

/-- Python `a or b` on strings: `a` when non-empty, else `b`. -/
def strOr (a b : String) : String := if a.isEmpty then b else a

/-- Contiguous-sublist test on character lists. -/
def isInfixList (needle : List Char) : List Char → Bool
  | [] => needle.isEmpty
  | c :: cs => needle.isPrefixOf (c :: cs) || isInfixList needle cs

/-- Python `needle in haystack` for strings: contiguous substring test. -/
def pyInStr (needle haystack : String) : Bool :=
  isInfixList needle.toList haystack.toList

/-- Locale-style `M/D/YYYY h:mm:ss AM/PM` date parsing (the format Epic
TSV exports carry, per §4.1 and the fidelity tests' example rows). -/
def parseLocaleDateTime (cs : List Char) : Option PyDateTime := do
  let (mo, cs) ← takeDigits12 cs
  let cs ← expectChar '/' cs
  let (d, cs) ← takeDigits12 cs
  let cs ← expectChar '/' cs
  let (y, cs) ← takeDigitsExact 4 cs
  let cs ← expectChar ' ' cs
  let (h12, cs) ← takeDigits12 cs
  let cs ← expectChar ':' cs
  let (mi, cs) ← takeDigitsExact 2 cs
  let cs ← expectChar ':' cs
  let (sec, cs) ← takeDigitsExact 2 cs
  let cs ← expectChar ' ' cs
  match cs with
  | ['A', 'M'] =>
      if 1 ≤ h12 && h12 ≤ 12 then mkDateTime y mo d (h12 % 12) mi sec 0 none else none
  | ['P', 'M'] =>
      if 1 ≤ h12 && h12 ≤ 12 then mkDateTime y mo d (h12 % 12 + 12) mi sec 0 none else none
  | _ => none

/-- Modelled from the spec: `EpicMapper.parse_epic_date` from
`epic_mappers/base.py`, a file absent from the repository snapshot.  §4.1:
one shared routine accepting locale-style `M/D/YYYY h:mm:ss AM/PM` and
ISO-8601 variants; blank or unparsable input yields `None`, never an
exception. -/
def parseEpicDate (value : String) : Option PyDateTime :=
  if value.isEmpty then none
  else (parseLocaleDateTime value.toList).orElse fun _ => parseFhirDate value

/-- Zero-padded two-digit rendering. -/
def pad2 (n : Nat) : String := if n < 10 then "0" ++ toString n else toString n

/-- Zero-padded four-digit rendering (years). -/
def pad4 (n : Nat) : String :=
  if n < 10 then "000" ++ toString n
  else if n < 100 then "00" ++ toString n
  else if n < 1000 then "0" ++ toString n
  else toString n

/-- Zero-padded six-digit rendering (microseconds). -/
def pad6 (n : Nat) : String :=
  let s := toString n
  String.mk (List.replicate (6 - s.length) '0') ++ s

/-- The `±HH:MM` suffix `datetime.isoformat` renders for aware values. -/
def tzSuffix : Option Int → String
  | none => ""
  | some off =>
      let sign := if off < 0 then "-" else "+"
      let a := off.natAbs
      sign ++ pad2 (a / 60) ++ ":" ++ pad2 (a % 60)

/-- `datetime.isoformat()`: `YYYY-MM-DDTHH:MM:SS[.ffffff][±HH:MM]`. -/
def PyDateTime.isoformat (dt : PyDateTime) : String :=
  pad4 dt.year ++ "-" ++ pad2 dt.month ++ "-" ++ pad2 dt.day ++ "T" ++
  pad2 dt.hour ++ ":" ++ pad2 dt.minute ++ ":" ++ pad2 dt.second ++
  (if dt.usec == 0 then "" else "." ++ pad6 dt.usec) ++ tzSuffix dt.tzmin

/-- Leading run of decimal digits and the rest of the input. -/
def takeAllDigits : List Char → List Char × List Char
  | c :: cs =>
      if c.isDigit then
        match takeAllDigits cs with
        | (ds, r) => (c :: ds, r)
      else ([], c :: cs)
  | [] => ([], [])

/-- Exponent tail of a float literal. -/
def floatExpTail (mant : ℚ) (sgn : Int) (cs : List Char) : Option ℚ :=
  match takeAllDigits cs with
  | (ds, rest) =>
      if ds.isEmpty || !rest.isEmpty then none
      else some (mant * (10 : ℚ) ^ (sgn * (digitsVal ds : Int)))

/-- Optional `e`/`E` exponent of a float literal. -/
def floatAfterMant (mant : ℚ) : List Char → Option ℚ
  | [] => some mant
  | c :: cs =>
      if c == 'e' || c == 'E' then
        match cs with
        | '+' :: cs2 => floatExpTail mant 1 cs2
        | '-' :: cs2 => floatExpTail mant (-1) cs2
        | cs2 => floatExpTail mant 1 cs2
      else none

/-- Unsigned decimal float literal. -/
def pyFloatCore (cs : List Char) : Option ℚ :=
  match takeAllDigits cs with
  | (ip, rest) =>
      match rest with
      | '.' :: cs2 =>
          match takeAllDigits cs2 with
          | (fp, cs3) =>
              if ip.isEmpty && fp.isEmpty then none
              else
                floatAfterMant ((digitsVal ip : ℚ) + (digitsVal fp : ℚ) / (10 ^ fp.length : ℚ)) cs3
      | _ => if ip.isEmpty then none else floatAfterMant (digitsVal ip : ℚ) rest

/-- `float(s)` on an already-stripped cell: the accepted decimal literals,
with the value modelled as a rational (the pipeline stores the number and
never computes with it). -/
def pyFloat? (s : String) : Option ℚ :=
  match s.toList with
  | '+' :: cs => pyFloatCore cs
  | '-' :: cs => (pyFloatCore cs).map (fun q => -q)
  | cs => pyFloatCore cs

/-- `int(s)` on an already-stripped cell: optional sign and digits. -/
def pyInt? (s : String) : Option Int :=
  let digitsOnly : List Char → Option Nat := fun cs =>
    match takeAllDigits cs with
    | (ds, rest) => if ds.isEmpty || !rest.isEmpty then none else some (digitsVal ds)
  match s.toList with
  | '+' :: cs => (digitsOnly cs).map Int.ofNat
  | '-' :: cs => (digitsOnly cs).map (fun n => -(n : Int))
  | cs => (digitsOnly cs).map Int.ofNat

/-- Dict assignment `d[k] = v`: overwrite in place, else append. -/
def assocSet (l : List (String × Json)) (k : String) (v : Json) : List (String × Json) :=
  if (l.lookup k).isSome then l.map (fun p => if p.1 == k then (k, v) else p)
  else l ++ [(k, v)]

/-- `resource["dosageInstruction"][0]["route"] = {"text": route}`
(epic_mappers/medications.py line 67); guarded by the caller so the value
is always the mapper's own one-element list of dicts. -/
def addRouteToDosage (resource : List (String × Json)) (route : String) :
    List (String × Json) :=
  match resource.lookup "dosageInstruction" with
  | some (.arr (Json.obj d0 :: rest)) =>
      assocSet resource "dosageInstruction"
        (.arr (Json.obj (assocSet d0 "route" (.obj [("text", .str route)])) :: rest))
  | _ => resource

/-- `OrderMedMapper.to_fhir` (epic_mappers/medications.py lines 9–69):
gate on a medication name, classify the order status by substring
(completed/sent before cancel/discontinue, default `"active"`), then
assemble the MedicationRequest. -/
def orderMedToFhir (row : EpicRow) : Option Json :=
  let medName := strOr (safeGet row "DISPLAY_NAME") (safeGet row "MEDICATION_ID_MEDICATION_NAME")
  if medName.isEmpty then none
  else
    let startDate := parseEpicDate (safeGet row "START_DATE")
    let endDate := parseEpicDate (safeGet row "END_DATE")
    let authored := parseEpicDate (safeGet row "ORDERING_DATE")
    let statusRaw := pyLower (safeGet row "ORDER_STATUS_C_NAME")
    let status :=
      if pyInStr "completed" statusRaw || pyInStr "sent" statusRaw then "completed"
      else if pyInStr "cancel" statusRaw || pyInStr "discontinue" statusRaw then "cancelled"
      else "active"
    let resource : List (String × Json) :=
      [("resourceType", .str "MedicationRequest"),
       ("status", .str status),
       ("intent", .str "order"),
       ("medicationCodeableConcept", .obj [("text", .str medName)]),
       ("category", .arr [.obj [("text", .str "community")]])]
    let resource := match authored with
      | some dt => resource ++ [("authoredOn", .str dt.isoformat)]
      | none => resource
    let dosage := safeGet row "DOSAGE"
    let description := safeGet row "DESCRIPTION"
    let resource :=
      if !dosage.isEmpty || !description.isEmpty then
        resource ++ [("dosageInstruction", .arr [.obj [("text", .str (strOr dosage description))]])]
      else resource
    let quantity := safeGet row "QUANTITY"
    let refills := safeGet row "REFILLS"
    let resource :=
      if !quantity.isEmpty || !refills.isEmpty then
        let disp := (if !quantity.isEmpty then [("quantity", Json.obj [("value", Json.str quantity)])] else [])
                 ++ (if !refills.isEmpty then [("numberOfRepeatsAllowed", Json.str refills)] else [])
        resource ++ [("dispenseRequest", .obj disp)]
      else resource
    let resource :=
      if startDate.isSome || endDate.isSome then
        let period := (match startDate with
                       | some dt => [("start", Json.str dt.isoformat)]
                       | none => [])
                   ++ (match endDate with
                       | some dt => [("end", Json.str dt.isoformat)]
                       | none => [])
        resource ++ [("effectivePeriod", .obj period)]
      else resource
    let prescriber := safeGet row "MED_PRESC_PROV_ID_PROV_NAME"
    let resource :=
      if !prescriber.isEmpty then resource ++ [("requester", .obj [("display", .str prescriber)])]
      else resource
    let route := safeGet row "MED_ROUTE_C_NAME"
    let resource :=
      if !route.isEmpty && optTruthy ((resource.lookup "dosageInstruction")) then
        addRouteToDosage resource route
      else resource
    some (.obj resource)

/-- `AllergyMapper.to_fhir` (epic_mappers/allergies.py lines 9–59): gate
on the allergen name, classify clinical status and severity by substring,
then assemble the AllergyIntolerance. -/
def allergyToFhir (row : EpicRow) : Option Json :=
  let allergen := safeGet row "ALLERGEN_ID_ALLERGEN_NAME"
  if allergen.isEmpty then none
  else
    let dateNoted := parseEpicDate (safeGet row "DATE_NOTED")
    let severityRaw := pyLower (safeGet row "SEVERITY_C_NAME")
    let statusRaw := pyLower (safeGet row "ALRGY_STATUS_C_NAME")
    let clinicalStatus :=
      if pyInStr "inactive" statusRaw || pyInStr "deleted" statusRaw then "inactive"
      else if pyInStr "resolved" statusRaw then "resolved"
      else "active"
    let severity : Option String :=
      if pyInStr "severe" severityRaw || pyInStr "high" severityRaw then some "severe"
      else if pyInStr "moderate" severityRaw then some "moderate"
      else if pyInStr "mild" severityRaw || pyInStr "low" severityRaw then some "mild"
      else none
    let resource : List (String × Json) :=
      [("resourceType", .str "AllergyIntolerance"),
       ("code", .obj [("text", .str allergen)]),
       ("clinicalStatus", .obj [("coding", .arr [.obj
          [("system", .str "http://terminology.hl7.org/CodeSystem/allergyintolerance-clinical"),
           ("code", .str clinicalStatus)]])])]
    let resource := match dateNoted with
      | some dt => resource ++ [("recordedDate", .str dt.isoformat)]
      | none => resource
    let reactionText := safeGet row "REACTION"
    let resource :=
      if !reactionText.isEmpty then
        let reaction := [("manifestation", Json.arr [.obj [("text", .str reactionText)]])]
        let reaction := match severity with
          | some sv => reaction ++ [("severity", Json.str sv)]
          | none => reaction
        resource ++ [("reaction", .arr [.obj reaction])]
      else
        match severity with
        | some sv => resource ++ [("reaction", .arr [.obj [("severity", .str sv)]])]
        | none => resource
    some (.obj resource)

/-- `VitalsMapper.to_fhir` (epic_mappers/vitals.py lines 9–55): gate on a
measure name and a value; numeric values become a `valueQuantity`,
non-numeric ones a `valueString`. -/
def vitalsToFhir (row : EpicRow) : Option Json :=
  let measureName := strOr (safeGet row "FLO_MEAS_NAME")
    (strOr (safeGet row "DISP_NAME") (safeGet row "FLO_MEAS_ID_FLO_MEAS_NAME"))
  let value := safeGet row "MEAS_VALUE"
  if measureName.isEmpty || value.isEmpty then none
  else
    let recordedDate := parseEpicDate (strOr (safeGet row "RECORDED_TIME") (safeGet row "ENTRY_TIME"))
    let resource : List (String × Json) :=
      [("resourceType", .str "Observation"),
       ("status", .str "final"),
       ("category", .arr [.obj [("coding", .arr [.obj
          [("system", .str "http://terminology.hl7.org/CodeSystem/observation-category"),
           ("code", .str "vital-signs"),
           ("display", .str "Vital Signs")]])]]),
       ("code", .obj [("text", .str measureName)])]
    let resource := match recordedDate with
      | some dt => resource ++ [("effectiveDateTime", .str dt.isoformat)]
      | none => resource
    let unit := safeGet row "UNITS"
    let resource := match pyFloat? value with
      | some q => resource ++ [("valueQuantity", .obj [("value", .num q), ("unit", .str unit)])]
      | none => resource ++ [("valueString", .str value)]
    some (.obj resource)

/-- `ImmuneMapper.to_fhir` (epic_mappers/immunizations.py lines 9–51). -/
def immuneToFhir (row : EpicRow) : Option Json :=
  let vaccineName := safeGet row "IMMUNZATN_ID_NAME"
  if vaccineName.isEmpty then none
  else
    let immuneDate := parseEpicDate (safeGet row "IMMUNE_DATE")
    let statusRaw := pyLower (safeGet row "IMMNZTN_STATUS_C_NAME")
    let status :=
      if pyInStr "not done" statusRaw || pyInStr "refused" statusRaw then "not-done"
      else if pyInStr "entered-in-error" statusRaw then "entered-in-error"
      else "completed"
    let resource : List (String × Json) :=
      [("resourceType", .str "Immunization"),
       ("status", .str status),
       ("vaccineCode", .obj [("text", .str vaccineName)])]
    let resource := match immuneDate with
      | some dt => resource ++ [("occurrenceDateTime", .str dt.isoformat)]
      | none => resource
    let dose := safeGet row "DOSE"
    let route := safeGet row "ROUTE_C_NAME"
    let site := safeGet row "SITE_C_NAME"
    let resource := if !dose.isEmpty then resource ++ [("doseQuantity", .obj [("value", .str dose)])] else resource
    let resource := if !route.isEmpty then resource ++ [("route", .obj [("text", .str route)])] else resource
    let resource := if !site.isEmpty then resource ++ [("site", .obj [("text", .str site)])] else resource
    let manufacturer := safeGet row "MFG_C_NAME"
    let resource :=
      if !manufacturer.isEmpty then resource ++ [("manufacturer", .obj [("display", .str manufacturer)])]
      else resource
    let lot := safeGet row "LOT"
    let resource := if !lot.isEmpty then resource ++ [("lotNumber", .str lot)] else resource
    some (.obj resource)

/-- `OrderProcMapper.to_fhir` (epic_mappers/procedures.py lines 9–51). -/
def orderProcToFhir (row : EpicRow) : Option Json :=
  let procName := strOr (safeGet row "DESCRIPTION")
    (strOr (safeGet row "PROC_NAME")
      (strOr (safeGet row "ORDER_TYPE_C_NAME") (safeGet row "DISPLAY_NAME")))
  if procName.isEmpty then none
  else
    let orderDate := parseEpicDate (strOr (safeGet row "ORDER_INST")
      (strOr (safeGet row "ORDERING_DATE") (safeGet row "ORDER_DATE")))
    let statusRaw := pyLower (safeGet row "ORDER_STATUS_C_NAME")
    let status :=
      if pyInStr "pending" statusRaw || pyInStr "ordered" statusRaw then "preparation"
      else if pyInStr "cancel" statusRaw || pyInStr "discontinue" statusRaw then "not-done"
      else if pyInStr "in progress" statusRaw then "in-progress"
      else "completed"
    let resource : List (String × Json) :=
      [("resourceType", .str "Procedure"),
       ("status", .str status),
       ("code", .obj [("text", .str procName)])]
    let resource := match orderDate with
      | some dt => resource ++ [("performedDateTime", .str dt.isoformat)]
      | none => resource
    let provider := strOr (safeGet row "AUTHRZING_PROV_ID_PROV_NAME") (safeGet row "ORD_PROV_ID_PROV_NAME")
    let resource :=
      if !provider.isEmpty then
        resource ++ [("performer", .arr [.obj [("actor", .obj [("display", .str provider)])]])]
      else resource
    some (.obj resource)

/-- `ReferralMapper.to_fhir` (epic_mappers/referrals.py lines 9–56). -/
def referralToFhir (row : EpicRow) : Option Json :=
  let reason := safeGet row "RSN_FOR_RFL_C_NAME"
  let referralProv := safeGet row "REFERRAL_PROV_ID_PROV_NAME"
  let referringProv := safeGet row "REFERRING_PROV_ID_REFERRING_PROV_NAM"
  if reason.isEmpty && referralProv.isEmpty then none
  else
    let startDate := parseEpicDate (safeGet row "START_DATE")
    let expDate := parseEpicDate (safeGet row "EXP_DATE")
    let statusRaw := pyLower (safeGet row "RFL_STATUS_C_NAME")
    let status :=
      if pyInStr "completed" statusRaw || pyInStr "closed" statusRaw then "completed"
      else if pyInStr "cancelled" statusRaw || pyInStr "canceled" statusRaw then "revoked"
      else if pyInStr "pending" statusRaw then "draft"
      else "active"
    let resource : List (String × Json) :=
      [("resourceType", .str "ServiceRequest"),
       ("status", .str status),
       ("intent", .str "order"),
       ("category", .arr [.obj [("text", .str "referral")]])]
    let resource := if !reason.isEmpty then resource ++ [("code", .obj [("text", .str reason)])] else resource
    let resource := match startDate with
      | some dt => resource ++ [("authoredOn", .str dt.isoformat)]
      | none => resource
    let resource :=
      if startDate.isSome || expDate.isSome then
        let occurrence := (match startDate with
                           | some dt => [("start", Json.str dt.isoformat)]
                           | none => [])
                       ++ (match expDate with
                           | some dt => [("end", Json.str dt.isoformat)]
                           | none => [])
        resource ++ [("occurrencePeriod", .obj occurrence)]
      else resource
    let resource :=
      if !referringProv.isEmpty then resource ++ [("requester", .obj [("display", .str referringProv)])]
      else resource
    let resource :=
      if !referralProv.isEmpty then resource ++ [("performer", .arr [.obj [("display", .str referralProv)]])]
      else resource
    some (.obj resource)

/-- `EncounterDxMapper.to_fhir` (epic_mappers/encounter_dx.py lines 9–51). -/
def encounterDxToFhir (row : EpicRow) : Option Json :=
  let dxName := safeGet row "DX_ID_DX_NAME"
  if dxName.isEmpty then none
  else
    let contactDate := parseEpicDate (safeGet row "CONTACT_DATE")
    let isPrimary := safeGet row "PRIMARY_DX_YN" == "Y"
    let resource : List (String × Json) :=
      [("resourceType", .str "Condition"),
       ("code", .obj [("text", .str dxName)]),
       ("clinicalStatus", .obj [("coding", .arr [.obj
          [("system", .str "http://terminology.hl7.org/CodeSystem/condition-clinical"),
           ("code", .str "active")]])]),
       ("category", .arr [.obj [("coding", .arr [.obj
          [("system", .str "http://terminology.hl7.org/CodeSystem/condition-category"),
           ("code", .str "encounter-diagnosis"),
           ("display", .str "Encounter Diagnosis")]])]])]
    let resource := match contactDate with
      | some dt => resource ++ [("recordedDate", .str dt.isoformat)]
      | none => resource
    let resource := if isPrimary then resource ++ [("_primaryDiagnosis", .bool true)] else resource
    let dxNote := safeGet row "ANNOTATION"
    let resource := if !dxNote.isEmpty then resource ++ [("note", .arr [.obj [("text", .str dxNote)]])] else resource
    some (.obj resource)

/-- `SocialHxMapper.to_fhir` (epic_mappers/social_hx.py lines 9–53). -/
def socialHxToFhir (row : EpicRow) : Option Json :=
  let hxType := strOr (safeGet row "SOCIAL_HX_TYPE_C_NAME")
    (strOr (safeGet row "HX_TYPE") (safeGet row "TOBACCO_USER_C_NAME"))
  let hxValue := strOr (safeGet row "SOCIAL_HX_COMMENT")
    (strOr (safeGet row "COMMENT") (safeGet row "SMOKING_TOBA_USE_C_NAME"))
  if hxType.isEmpty && hxValue.isEmpty then none
  else
    let contactDate := parseEpicDate (strOr (safeGet row "CONTACT_DATE") (safeGet row "ENTRY_DATE"))
    let resource : List (String × Json) :=
      [("resourceType", .str "Observation"),
       ("status", .str "final"),
       ("category", .arr [.obj [("coding", .arr [.obj
          [("system", .str "http://terminology.hl7.org/CodeSystem/observation-category"),
           ("code", .str "social-history"),
           ("display", .str "Social History")]])]]),
       ("code", .obj [("text", .str (strOr hxType "Social History"))])]
    let resource := match contactDate with
      | some dt => resource ++ [("effectiveDateTime", .str dt.isoformat)]
      | none => resource
    let resource := if !hxValue.isEmpty then resource ++ [("valueString", .str hxValue)] else resource
    some (.obj resource)

/-- `FamilyHxMapper.to_fhir` (epic_mappers/family_hx.py lines 9–40). -/
def familyHxToFhir (row : EpicRow) : Option Json :=
  let dxName := safeGet row "FAM_MEDICAL_DX_ID_DX_NAME"
  let relation := safeGet row "RELATION_C_NAME"
  if dxName.isEmpty then none
  else
    let resource : List (String × Json) :=
      [("resourceType", .str "FamilyMemberHistory"),
       ("status", .str "completed")]
    let resource :=
      if !relation.isEmpty then resource ++ [("relationship", .obj [("text", .str relation)])]
      else resource
    let condition : List (String × Json) := [("code", .obj [("text", .str dxName)])]
    let ageOfOnset := safeGet row "AGE_OF_ONSET"
    let condition :=
      if !ageOfOnset.isEmpty then
        match pyInt? ageOfOnset with
        | some n => condition ++ [("onsetAge", .obj
            [("value", .num (n : ℚ)), ("unit", .str "years"),
             ("system", .str "http://unitsofmeasure.org"), ("code", .str "a")])]
        | none => condition ++ [("onsetString", .str ageOfOnset)]
      else condition
    let resource := resource ++ [("condition", .arr [.obj condition])]
    some (.obj resource)

/-- Modelled from the spec: `ProblemListMapper.to_fhir` from
`epic_mappers/problems.py`, a file absent from the repository snapshot.
Per §4.1 and the fidelity tests' PROBLEM_LIST column spec: gate on
`DX_ID_DX_NAME` with `DESCRIPTION` fallback, dates to
`onsetDateTime`/`abatementDateTime`, substring-classified clinical
status, `PROBLEM_CMT` to a note. -/
def problemListToFhir (row : EpicRow) : Option Json :=
  let dxName := strOr (safeGet row "DX_ID_DX_NAME") (safeGet row "DESCRIPTION")
  if dxName.isEmpty then none
  else
    let statusRaw := pyLower (safeGet row "PROBLEM_STATUS_C_NAME")
    let clinicalStatus :=
      if pyInStr "resolved" statusRaw then "resolved"
      else if pyInStr "deleted" statusRaw then "inactive"
      else "active"
    let resource : List (String × Json) :=
      [("resourceType", .str "Condition"),
       ("code", .obj [("text", .str dxName)]),
       ("clinicalStatus", .obj [("coding", .arr [.obj [("code", .str clinicalStatus)]])])]
    let resource := match parseEpicDate (safeGet row "NOTED_DATE") with
      | some dt => resource ++ [("onsetDateTime", .str dt.isoformat)]
      | none => resource
    let resource := match parseEpicDate (safeGet row "RESOLVED_DATE") with
      | some dt => resource ++ [("abatementDateTime", .str dt.isoformat)]
      | none => resource
    let cmt := safeGet row "PROBLEM_CMT"
    let resource := if !cmt.isEmpty then resource ++ [("note", .arr [.obj [("text", .str cmt)]])] else resource
    some (.obj resource)

/-- Modelled from the spec: `MedicalHxMapper.to_fhir` from
`epic_mappers/problems.py`, a file absent from the repository snapshot.
Per the MEDICAL_HX column spec: gate on `DX_ID_DX_NAME`, date to
`onsetDateTime`, a note column. -/
def medicalHxToFhir (row : EpicRow) : Option Json :=
  let dxName := safeGet row "DX_ID_DX_NAME"
  if dxName.isEmpty then none
  else
    let resource : List (String × Json) :=
      [("resourceType", .str "Condition"),
       ("code", .obj [("text", .str dxName)])]
    let resource := match parseEpicDate (safeGet row "MEDICAL_HX_DATE") with
      | some dt => resource ++ [("onsetDateTime", .str dt.isoformat)]
      | none => resource
    let note := safeGet row "MED_HX_ANNOTATION"
    let resource := if !note.isEmpty then resource ++ [("note", .arr [.obj [("text", .str note)]])] else resource
    some (.obj resource)

/-- Modelled from the spec: `OrderResultsMapper.to_fhir` from
`epic_mappers/results.py`, a file absent from the repository snapshot.
Per §4.1 and the ORDER_RESULTS column spec: gate on `COMPONENT_ID_NAME`;
a numeric parse of `ORD_NUM_VALUE` populates `valueQuantity`, failure
falls back to `valueString` from `ORD_VALUE`. -/
def orderResultsToFhir (row : EpicRow) : Option Json :=
  let component := safeGet row "COMPONENT_ID_NAME"
  if component.isEmpty then none
  else
    let resource : List (String × Json) :=
      [("resourceType", .str "Observation"),
       ("status", .str "final"),
       ("code", .obj [("text", .str component)])]
    let resource := match parseEpicDate (safeGet row "RESULT_DATE") with
      | some dt => resource ++ [("effectiveDateTime", .str dt.isoformat)]
      | none => resource
    let resource := match pyFloat? (safeGet row "ORD_NUM_VALUE") with
      | some q => resource ++ [("valueQuantity", .obj
          [("value", .num q), ("unit", .str (safeGet row "REFERENCE_UNIT"))])]
      | none =>
          let ov := safeGet row "ORD_VALUE"
          if !ov.isEmpty then resource ++ [("valueString", .str ov)] else resource
    some (.obj resource)

/-- Modelled from the spec: `PatEncMapper.to_fhir` from
`epic_mappers/encounters.py`, a file absent from the repository snapshot.
Per the PAT_ENC column spec: gate on `CONTACT_DATE`, which becomes
`period.start`. -/
def patEncToFhir (row : EpicRow) : Option Json :=
  let contact := safeGet row "CONTACT_DATE"
  if contact.isEmpty then none
  else
    let resource : List (String × Json) :=
      [("resourceType", .str "Encounter"),
       ("status", .str "finished")]
    let period := match parseEpicDate contact with
      | some dt => [("start", Json.str dt.isoformat)]
      | none => []
    let period := match parseEpicDate (safeGet row "HOSP_DISCHRG_TIME") with
      | some dt => period ++ [("end", Json.str dt.isoformat)]
      | none => period
    let resource := resource ++ [("period", .obj period)]
    let dept := safeGet row "DEPARTMENT_ID_EXTERNAL_NAME"
    let resource :=
      if !dept.isEmpty then
        resource ++ [("location", .arr [.obj [("location", .obj [("display", .str dept)])]])]
      else resource
    some (.obj resource)

/-- Modelled from the spec: `DocInformationMapper.to_fhir` from
`epic_mappers/documents.py`, a file absent from the repository snapshot.
Per the DOC_INFORMATION column spec: gate on `DOC_INFO_TYPE_C_NAME`,
which becomes `type.text`; `DOC_DESCR` becomes `description`. -/
def docInformationToFhir (row : EpicRow) : Option Json :=
  let docType := safeGet row "DOC_INFO_TYPE_C_NAME"
  if docType.isEmpty then none
  else
    let resource : List (String × Json) :=
      [("resourceType", .str "DocumentReference"),
       ("status", .str "current"),
       ("type", .obj [("text", .str docType)])]
    let resource := match parseEpicDate (safeGet row "DOC_RECV_TIME") with
      | some dt => resource ++ [("date", .str dt.isoformat)]
      | none => resource
    let descr := safeGet row "DOC_DESCR"
    let resource := if !descr.isEmpty then resource ++ [("description", .str descr)] else resource
    some (.obj resource)

/-! ## Table-directory parsing (`epic_parser.py`) -/

/-- `EPIC_TABLE_MAPPERS` (epic_parser.py lines 30–46): the static
table-name → mapper registry. -/
def epicTableMappers : List (String × (EpicRow → Option Json)) :=
  [("PROBLEM_LIST", problemListToFhir),
   ("PROBLEM_LIST_ALL", problemListToFhir),
   ("MEDICAL_HX", medicalHxToFhir),
   ("ORDER_MED", orderMedToFhir),
   ("ORDER_RESULTS", orderResultsToFhir),
   ("PAT_ENC", patEncToFhir),
   ("DOC_INFORMATION", docInformationToFhir),
   ("ALLERGY", allergyToFhir),
   ("IMMUNE", immuneToFhir),
   ("ORDER_PROC", orderProcToFhir),
   ("IP_FLWSHT_MEAS", vitalsToFhir),
   ("REFERRAL", referralToFhir),
   ("PAT_ENC_DX", encounterDxToFhir),
   ("SOCIAL_HX", socialHxToFhir),
   ("FAMILY_HX", familyHxToFhir)]

/-- `RECORD_TYPE_MAP` (epic_parser.py lines 48–62). -/
def recordTypeMap : List (String × String) :=
  [("Condition", "condition"),
   ("MedicationRequest", "medication"),
   ("Observation", "observation"),
   ("Encounter", "encounter"),
   ("DocumentReference", "document"),
   ("Immunization", "immunization"),
   ("Procedure", "procedure"),
   ("AllergyIntolerance", "allergy"),
   ("ServiceRequest", "service_request"),
   ("FamilyMemberHistory", "condition"),
   ("CareTeam", "care_team"),
   ("ImmunizationRecommendation", "immunization"),
   ("QuestionnaireResponse", "questionnaire_response")]

/-- One row of a mapped table (epic_parser.py lines 110–147): run the
mapper (`None` → skipped row), derive the record type and the shared
metadata, and assemble the insert dict.  A raised exception anywhere in
this scope is caught by the per-row `try/except`. -/
def epicRowRecord (u p : Nat) (s : Option Nat) (mapper : EpicRow → Option Json)
    (row : EpicRow) : Py (Option InsertRow) := do
  match mapper row with
  | none => .ok none
  | some fhirResource => do
      let rtJson ← pyGetD fhirResource "resourceType" (.str "Unknown")
      let rtStr ← (match rtJson with
        | .str s' => pure s'
        | _ => Except.error ())
      let record_type := (recordTypeMap.lookup rtStr).getD (pyLower rtStr)
      let coding ← extractCoding fhirResource
      let eff ← extractEffectiveDate fhirResource
      let effEnd ← extractEffectiveDateEnd fhirResource
      let status ← extractStatus fhirResource
      let cats ← extractCategories fhirResource
      let disp ← buildDisplayText fhirResource rtStr
      .ok (some
        { record :=
            { record_type := record_type
              fhir_resource_type := rtStr
              fhir_resource := fhirResource
              source_format := "epic_ehi"
              effective_date := eff
              effective_date_end := effEnd
              status := status
              category := cats
              code_system := coding.1
              code_value := coding.2.1
              code_display := coding.2.2
              display_text := disp }
          user_id := u
          patient_id := p
          source_file_id := s })

/-- Per-file counters of the table loop (epic_parser.py lines 100–103 and
173–179), plus the rows the file flushed. -/
structure EpicFileResult where
  row_count : Nat
  rows_inserted : Nat
  rows_skipped : Nat
  error_rows : List Nat
  inserted : List InsertRow
  deriving Repr, BEq

/-- The row loop over one mapped `.tsv` file (epic_parser.py lines
105–167): stream rows through the mapper, batch, flush at `batch_size`
and at end of file; per-row exceptions are recorded with their row index
and do not stop the file. -/
def epicFileLoop (u p : Nat) (s : Option Nat) (bs : Nat) (mapper : EpicRow → Option Json) :
    List EpicRow → Nat → List InsertRow → EpicFileResult → EpicFileResult
  | [], _, batch, res =>
      if !batch.isEmpty then
        { res with rows_inserted := res.rows_inserted + bulkInsertRecords batch
                   inserted := res.inserted ++ batch }
      else res
  | row :: rest, i, batch, res =>
      let res := { res with row_count := res.row_count + 1 }
      match epicRowRecord u p s mapper row with
      | .error _ =>
          epicFileLoop u p s bs mapper rest (i + 1) batch
            { res with error_rows := res.error_rows ++ [i] }
      | .ok none =>
          epicFileLoop u p s bs mapper rest (i + 1) batch
            { res with rows_skipped := res.rows_skipped + 1 }
      | .ok (some r) =>
          let batch' := batch ++ [r]
          if bs ≤ batch'.length then
            epicFileLoop u p s bs mapper rest (i + 1) []
              { res with rows_inserted := res.rows_inserted + bulkInsertRecords batch'
                         inserted := res.inserted ++ batch' }
          else
            epicFileLoop u p s bs mapper rest (i + 1) batch' res

/-- A `stats["errors"]` entry of the table-directory parse: the table
name and, for per-row errors, the row index. -/
structure EpicError where
  file : String
  row : Option Nat
  deriving Repr, BEq, DecidableEq

/-- The stats dict of `parse_epic_export` (epic_parser.py lines 81–89),
plus the rows flushed to the database. -/
structure EpicStats where
  total_files : Nat
  files_processed : Nat
  records_inserted : Nat
  records_skipped : Nat
  errors : List EpicError
  files_detail : List (String × Nat × Nat × Nat)
  files_skipped : List String
  inserted : List InsertRow
  deriving Repr, BEq

/-- The file loop of `parse_epic_export` (epic_parser.py lines 91–183):
a file whose upper-cased stem has no registered mapper is appended to
`files_skipped` and bumps `records_skipped` by one; a mapped file is
streamed and its per-file counters folded into the aggregate stats
(row-level skips go only into `files_detail`, not `records_skipped`). -/
def epicFilesLoop (u p : Nat) (s : Option Nat) (bs : Nat) :
    List (String × List EpicRow) → EpicStats → EpicStats
  | [], stats => stats
  | (stem, rows) :: rest, stats =>
      let tableName := (pyUpper stem)
      match epicTableMappers.lookup tableName with
      | none =>
          epicFilesLoop u p s bs rest
            { stats with files_skipped := stats.files_skipped ++ [tableName]
                         records_skipped := stats.records_skipped + 1 }
      | some mapper =>
          let fr := epicFileLoop u p s bs mapper rows 0 [] ⟨0, 0, 0, [], []⟩
          epicFilesLoop u p s bs rest
            { stats with
              files_processed := stats.files_processed + 1
              records_inserted := stats.records_inserted + fr.rows_inserted
              errors := stats.errors ++ fr.error_rows.map (fun i => ⟨tableName, some i⟩)
              files_detail := stats.files_detail ++ [(tableName, fr.row_count, fr.rows_inserted, fr.rows_skipped)]
              inserted := stats.inserted ++ fr.inserted }

/-- `parse_epic_export` (epic_parser.py lines 65–191), over the sorted
directory listing modelled as `(stem, rows)` pairs. -/
def parseEpicExport (u p : Nat) (s : Option Nat) (bs : Nat)
    (files : List (String × List EpicRow)) : EpicStats :=
  epicFilesLoop u p s bs files ⟨files.length, 0, 0, 0, [], [], [], []⟩

/-! ## Coordinator (`coordinator.py`) -/

/-- A job-level error entry as stored in `ingestion_errors`. -/
inductive JobError where
  | dispatch (msg : String)
  | entry (idx : Nat)
  | row (file : String) (idx : Option Nat)
  deriving Repr, BEq, DecidableEq

/-- The stats dict a dispatch branch returns to `ingest_file`
(coordinator.py lines 103–108), as read on lines 112–128. -/
structure IngestStats where
  total_entries : Nat
  records_inserted : Nat
  records_skipped : Nat
  errors : List JobError
  deriving Repr, BEq, DecidableEq

/-- The coordinator-visible fields of the uploaded-file job record
(timestamps elided). -/
structure UploadRecord where
  ingestion_status : String
  record_count : Option Nat
  ingestion_errors : List JobError
  ingestion_progress : Option (Nat × Nat × Nat)
  deriving Repr, BEq, DecidableEq

/-- The shared storage visible to the coordinator: the inserted health
records and the job record. -/
structure CoordDB where
  records : List InsertRow
  upload : UploadRecord
  deriving Repr, BEq

/-- Outcome of the dispatch step of `ingest_file` (the call on
coordinator.py lines 103–110): the rows the parsers had already flushed
and committed batch-by-batch, and either the final stats dict or the text
of the exception that escaped.  Flushed rows are already durable when the
exception escapes because every batch is committed before parsing
continues. -/
structure DispatchOutcome where
  flushed : List InsertRow
  result : Except String IngestStats

/-- What `ingest_file` returns to its caller on success. -/
structure IngestReturn where
  upload_status : String
  records_inserted : Nat
  errors : List JobError
  deriving Repr, BEq, DecidableEq

/-- The dispatch `try/except` of `ingest_file` (coordinator.py lines
102–137): on success, mark the job `"completed"` and persist counts and
errors; on an unhandled exception, mark it `"failed"`, record the
triggering error as the job's error list, commit, and re-raise — the
rows already flushed by the parsers are not rolled back. -/
def ingestFileFinish (db : CoordDB) (outcome : DispatchOutcome) :
    CoordDB × Except String IngestReturn :=
  let db' : CoordDB := { db with records := db.records ++ outcome.flushed }
  match outcome.result with
  | .ok stats =>
      ({ db' with upload :=
          { db'.upload with
            ingestion_status := "completed"
            record_count := some stats.records_inserted
            ingestion_errors := stats.errors
            ingestion_progress := some (stats.total_entries, stats.records_inserted, stats.records_skipped) } },
       .ok { upload_status := "completed"
             records_inserted := stats.records_inserted
             errors := stats.errors })
  | .error e =>
      ({ db' with upload :=
          { db'.upload with
            ingestion_status := "failed"
            ingestion_errors := [JobError.dispatch e] } },
       .error e)

/-! ## Claim-level observables and proof-support definitions -/

/-- The per-entry tuple the streaming-equivalence property compares:
`(recordType, effectiveDate, status, codeValue, displayText)`. -/
def entryTuple (r : HealthRecord) :
    String × Option PyDateTime × Json × Json × Json :=
  (r.record_type, r.effective_date, r.status, r.code_value, r.display_text)

/-- The tuples of all stored rows of a bundle parse, in insertion order. -/
def bundleTuples (st : BundleStats) :
    List (String × Option PyDateTime × Json × Json × Json) :=
  st.inserted.map fun row => entryTuple row.record

/-- The `(total_entries, records_inserted, records_skipped)` counters. -/
def bundleCounts (st : BundleStats) : Nat × Nat × Nat :=
  (st.total_entries, st.records_inserted, st.records_skipped)

/-- Bump `total_entries` by `n` (proof support for relating the two
bundle loops, which differ only in when they count entries). -/
def addTotal (n : Nat) (st : BundleStats) : BundleStats :=
  { st with total_entries := st.total_entries + n }

/-- The one fall-through of `build_display_text` that can return an empty
string: a first `dosageInstruction` element carrying a present-but-empty
`text` (fhir_parser.py line 208, reached for a MedicationRequest whose
other display sources are absent). -/
def hasBlankFirstDosageText (resource : Json) : Bool :=
  match resource.find? "dosageInstruction" with
  | some (.arr (Json.obj d0 :: _)) =>
      match d0.lookup "text" with
      | some (.str t) => t.isEmpty
      | _ => false
  | _ => false

/-- The code/type text `build_display_text` returns verbatim when present
and truthy (its very first fallback step). -/
def codeTextOf (resource : Json) : Option Json :=
  match resource with
  | .obj l =>
      match codeOrTypeObj l with
      | .obj cl =>
          if !(Json.obj cl).truthy then none
          else
            let t := (cl.lookup "text").getD .null
            if t.truthy then some t else none
      | _ => none
  | _ => none

/-- All values `extract_effective_date` can hand to `_parse_fhir_date`:
the candidate date fields, the `effectivePeriod`/`period` start, and
`meta.lastUpdated`. -/
def dateCandidateValues (resource : Json) : List Json :=
  match resource with
  | .obj l =>
      (dateFields.filterMap fun f => l.lookup f) ++
      (match pyOrJson ((l.lookup "effectivePeriod").getD .null)
                      ((l.lookup "period").getD .null) with
       | .obj pl => [(pl.lookup "start").getD .null]
       | _ => []) ++
      (match (l.lookup "meta").getD (.obj []) with
       | .obj ml => [(ml.lookup "lastUpdated").getD .null]
       | _ => [])
  | _ => []

/-- Field-wise sum/concatenation of two table-parse stats (proof support:
the file loop only ever adds to and appends onto its accumulator). -/
def combineStats (a b : EpicStats) : EpicStats :=
  { total_files := a.total_files + b.total_files
    files_processed := a.files_processed + b.files_processed
    records_inserted := a.records_inserted + b.records_inserted
    records_skipped := a.records_skipped + b.records_skipped
    errors := a.errors ++ b.errors
    files_detail := a.files_detail ++ b.files_detail
    files_skipped := a.files_skipped ++ b.files_skipped
    inserted := a.inserted ++ b.inserted }

/-- The all-zero table-parse stats. -/
def zeroStats : EpicStats := ⟨0, 0, 0, 0, [], [], [], []⟩

/-! ### Concrete inputs used by witnesses and counterexamples -/

/-- A Patient resource (skipped by the bundle parsers). -/
def patientResource : Json := .obj [("resourceType", .str "Patient"), ("id", .str "p1")]

/-- A Condition resource with a coded text. -/
def conditionResource : Json :=
  .obj [("resourceType", .str "Condition"),
        ("code", .obj [("text", .str "Hypertension")])]

/-- An Observation resource with a coded text and a date. -/
def observationResource : Json :=
  .obj [("resourceType", .str "Observation"),
        ("code", .obj [("text", .str "Heart rate")]),
        ("effectiveDateTime", .str "2024-01-15T10:30:00Z")]

/-- The 3-entry bundle (`Patient`, `Condition`, `Observation`) of the
spec's concrete scenario. -/
def threeEntryBundle : Json :=
  .obj [("resourceType", .str "Bundle"),
        ("entry", .arr [.obj [("resource", patientResource)],
                        .obj [("resource", conditionResource)],
                        .obj [("resource", observationResource)]])]

/-- A 2-entry bundle used to witness the streaming/in-memory
equivalence at a concrete input. -/
def twoEntryBundle : Json :=
  .obj [("resourceType", .str "Bundle"),
        ("entry", .arr [.obj [("resource", observationResource)],
                        .obj [("resource", patientResource)]])]

/-- An ORDER_MED row whose status contains both a "discontinue" and a
"sent" token, as Epic statuses such as "Discontinued - Order Sent" do. -/
def cancelSentRow : EpicRow :=
  [("DISPLAY_NAME", "Aspirin 81mg"),
   ("ORDER_STATUS_C_NAME", "Discontinued - Order Sent")]

/-- An ORDER_MED row with a plainly cancelled status. -/
def cancelledRow : EpicRow :=
  [("DISPLAY_NAME", "Aspirin 81mg"),
   ("ORDER_STATUS_C_NAME", "Canceled")]

/-- An ORDER_MED row whose status matches no classifier substring. -/
def unclassifiedStatusRow : EpicRow :=
  [("DISPLAY_NAME", "Aspirin 81mg"),
   ("ORDER_STATUS_C_NAME", "Suspended")]

/-- The spec's concrete ALLERGY row with the gate column blanked (here:
whitespace only). -/
def blankAllergenRow : EpicRow :=
  [("ALLERGEN_ID_ALLERGEN_NAME", "   "),
   ("SEVERITY_C_NAME", "Severe"),
   ("ALRGY_STATUS_C_NAME", "Active"),
   ("REACTION", "Hives")]

/-- A MedicationRequest whose only display source is a present-but-empty
dosage text: `build_display_text` returns the empty string for it. -/
def blankDosageMedReq : Json :=
  .obj [("resourceType", .str "MedicationRequest"),
        ("dosageInstruction", .arr [.obj [("text", .str "")]])]

/-- A Condition whose informative code text happens to equal the bare
resource-kind string. -/
def selfNamedCondition : Json :=
  .obj [("resourceType", .str "Condition"),
        ("code", .obj [("text", .str "Condition")])]

/-- An ALLERGY row mapping to a resource (for the table-parse witnesses). -/
def penicillinRow : EpicRow :=
  [("ALLERGEN_ID_ALLERGEN_NAME", "Penicillin"),
   ("SEVERITY_C_NAME", "Severe"),
   ("ALRGY_STATUS_C_NAME", "Active"),
   ("REACTION", "Hives")]

/-! ## Theorems -/

/-- C7: parsing the 3-entry `Patient`/`Condition`/`Observation` bundle
through the in-memory path yields `total_entries = 3`,
`records_inserted = 2` and `records_skipped = 1` (the `Patient` entry is
counted but not stored), and the two stored rows carry `record_type`
`"condition"` and `"observation"`, in order. -/
theorem threeEntryBundle_scenario :
    (parseSmallBundle threeEntryBundle 1 2 (some 3) 100).map bundleCounts = .ok (3, 2, 1) ∧
    (parseSmallBundle threeEntryBundle 1 2 (some 3) 100).map
        (fun st => st.inserted.map fun r => r.record.record_type) =
      .ok ["condition", "observation"] := by
  constructor <;> rfl

/-- C5: an ALLERGY row whose gate column `ALLERGEN_ID_ALLERGEN_NAME` is
blank (empty or whitespace, i.e. `safe_get` returns the empty string)
maps to `None` — no resource, no error — regardless of the other
columns. -/
theorem allergy_blank_gate_skips :
    ∀ row : EpicRow, safeGet row "ALLERGEN_ID_ALLERGEN_NAME" = "" →
      allergyToFhir row = none := by
  intro row h
  unfold allergyToFhir
  rw [h]
  rfl

/-- Witness for C5 at the spec's concrete row with a whitespace-only
allergen name. -/
theorem allergy_blank_gate_skips_witness :
    safeGet blankAllergenRow "ALLERGEN_ID_ALLERGEN_NAME" = "" ∧
    allergyToFhir blankAllergenRow = none :=
  ⟨by decide, allergy_blank_gate_skips blankAllergenRow (by decide)⟩

/-- C8: when the dispatch step of `ingest_file` raises, the job record is
marked `"failed"` with the triggering error as its error list, the
exception is re-raised to the caller, and the rows the parsers had
already flushed and committed remain in the database (appended, never
rolled back). -/
theorem ingest_dispatch_failure_contract :
    ∀ (db : CoordDB) (oc : DispatchOutcome) (e : String),
      oc.result = .error e →
      (ingestFileFinish db oc).1.upload.ingestion_status = "failed" ∧
      (ingestFileFinish db oc).1.upload.ingestion_errors = [JobError.dispatch e] ∧
      (ingestFileFinish db oc).1.records = db.records ++ oc.flushed ∧
      (ingestFileFinish db oc).2 = .error e := by
  intro db oc e h
  simp [ingestFileFinish, h]

/-- A non-empty string has `isEmpty = false`. -/
theorem isEmpty_false_of_ne (s : String) (h : s ≠ "") : s.isEmpty = false := by
  cases he : s.isEmpty
  · rfl
  · exact absurd ((String.isEmpty_iff s).1 he) h

/-- C6: whenever `map_fhir_resource` accepts a resource, the record's
stored `fhir_resource` payload is the input resource itself, structurally
unchanged — metadata extraction reads the resource but the stored value
is the original. -/
theorem mapFhirResource_roundtrip :
    ∀ (r : Json) (rec : HealthRecord),
      mapFhirResource r = .ok (some rec) → rec.fhir_resource = r := by
  intro r rec h
  unfold mapFhirResource at h
  simp only [bind, Except.bind, pure, Except.pure] at h
  repeat' split at h
  all_goals first
  | (cases h; rfl)
  | simp_all

/-- Witness for C6: the concrete Condition resource round-trips. -/
theorem mapFhirResource_roundtrip_witness :
    ∃ rec, mapFhirResource conditionResource = .ok (some rec) ∧
      rec.fhir_resource = conditionResource :=
  ⟨⟨"condition", "Condition", conditionResource, "fhir_r4", none, none,
    .null, .null, .null, .null, .str "Hypertension", .str "Hypertension"⟩,
   rfl, mapFhirResource_roundtrip conditionResource _ rfl⟩

/-- C2 counterexample: the claim as stated fails, because the
completed/sent classifier is checked first.  The row with
`ORDER_STATUS_C_NAME = "Discontinued - Order Sent"` contains
"discontinue" (case-insensitively), yet the produced status is
`"completed"`, not `"cancelled"`. -/
theorem orderMed_cancel_claim_counterexample :
    pyInStr "discontinue" (pyLower (safeGet cancelSentRow "ORDER_STATUS_C_NAME")) = true ∧
    (orderMedToFhir cancelSentRow).map (fun j => j.find? "status") =
      some (some (.str "completed")) := ⟨rfl, rfl⟩

set_option maxHeartbeats 1600000 in
/-- C2 (amended): for an ORDER_MED row with a non-blank medication name,
the produced status is `"cancelled"` when the lower-cased
`ORDER_STATUS_C_NAME` contains "cancel" or "discontinue" *and* contains
neither "completed" nor "sent" (which are classified first); when no
classifier substring matches at all, the status is the default
`"active"`. -/
theorem orderMed_status_classifier :
    ∀ row : EpicRow,
      strOr (safeGet row "DISPLAY_NAME") (safeGet row "MEDICATION_ID_MEDICATION_NAME") ≠ "" →
      (((pyInStr "cancel" (pyLower (safeGet row "ORDER_STATUS_C_NAME")) ||
         pyInStr "discontinue" (pyLower (safeGet row "ORDER_STATUS_C_NAME"))) = true →
        (pyInStr "completed" (pyLower (safeGet row "ORDER_STATUS_C_NAME")) ||
         pyInStr "sent" (pyLower (safeGet row "ORDER_STATUS_C_NAME"))) = false →
        ∃ rest, orderMedToFhir row = some (.obj
          (("resourceType", Json.str "MedicationRequest") ::
           ("status", Json.str "cancelled") :: rest))) ∧
       ((pyInStr "cancel" (pyLower (safeGet row "ORDER_STATUS_C_NAME")) ||
         pyInStr "discontinue" (pyLower (safeGet row "ORDER_STATUS_C_NAME"))) = false →
        (pyInStr "completed" (pyLower (safeGet row "ORDER_STATUS_C_NAME")) ||
         pyInStr "sent" (pyLower (safeGet row "ORDER_STATUS_C_NAME"))) = false →
        ∃ rest, orderMedToFhir row = some (.obj
          (("resourceType", Json.str "MedicationRequest") ::
           ("status", Json.str "active") :: rest)))) := by
  intro row hgate
  have hg := isEmpty_false_of_ne _ hgate
  constructor
  · intro hcd hcs
    simp only [orderMedToFhir, hg, Bool.false_eq_true, if_false, hcd, hcs, if_true]
    repeat' split
    all_goals exact ⟨_, rfl⟩
  · intro hcd hcs
    simp only [orderMedToFhir, hg, Bool.false_eq_true, if_false, hcd, hcs, if_true]
    repeat' split
    all_goals exact ⟨_, rfl⟩

/-- Witness for C2 (amended) at concrete rows: a "Canceled" status maps
to `"cancelled"`, an unclassified "Suspended" status to `"active"`. -/
theorem orderMed_status_classifier_witness :
    (∃ rest, orderMedToFhir cancelledRow = some (.obj
      (("resourceType", Json.str "MedicationRequest") ::
       ("status", Json.str "cancelled") :: rest))) ∧
    (∃ rest, orderMedToFhir unclassifiedStatusRow = some (.obj
      (("resourceType", Json.str "MedicationRequest") ::
       ("status", Json.str "active") :: rest))) :=
  ⟨(orderMed_status_classifier cancelledRow (by decide)).1 rfl rfl,
   (orderMed_status_classifier unclassifiedStatusRow (by decide)).2 rfl rfl⟩

/-- The field loop of `extract_effective_date` returns a truthy value of
one of the probed fields. -/
theorem firstTruthyField_mem (l : List (String × Json)) :
    ∀ (fs : List String) (v : Json), firstTruthyField l fs = some v →
      v ∈ fs.filterMap (fun f => l.lookup f) ∧ v.truthy = true := by
  intro fs
  induction fs with
  | nil => intro v h; simp [firstTruthyField] at h
  | cons f fs ih =>
      intro v h
      simp only [firstTruthyField] at h
      cases hl : l.lookup f with
      | none =>
          simp only [hl] at h
          obtain ⟨h1, h2⟩ := ih v h
          exact ⟨by simp [List.filterMap_cons, hl, h1], h2⟩
      | some w =>
          simp only [hl] at h
          by_cases hw : w.truthy = true
          · rw [if_pos hw] at h
            cases h
            exact ⟨by simp [List.filterMap_cons, hl], hw⟩
          · rw [if_neg hw] at h
            obtain ⟨h1, h2⟩ := ih v h
            exact ⟨by simp [List.filterMap_cons, hl, h1], h2⟩

/-- If `_parse_fhir_date` applied to a JSON value yields a datetime, the
value was a string that parses to it. -/
theorem parseFhirDateJson_some (v : Json) (d : PyDateTime) :
    parseFhirDateJson v = .ok (some d) →
    ∃ s, v = Json.str s ∧ parseFhirDate s = some d := by
  intro h
  cases v with
  | str s =>
      simp only [parseFhirDateJson] at h
      exact ⟨s, rfl, by injection h⟩
  | null => simp only [parseFhirDateJson] at h; split at h <;> simp_all
  | bool b => simp only [parseFhirDateJson] at h; split at h <;> simp_all
  | num n => simp only [parseFhirDateJson] at h; split at h <;> simp_all
  | arr a => simp only [parseFhirDateJson] at h; split at h <;> simp_all
  | obj o => simp only [parseFhirDateJson] at h; split at h <;> simp_all

/-- The `meta.lastUpdated` fallback, when it yields a datetime, parsed a
string stored under `meta.lastUpdated`. -/
theorem metaBranch_some (l : List (String × Json)) (d : PyDateTime) :
    metaLastUpdatedBranch l = .ok (some d) →
    ∃ ml, (l.lookup "meta").getD (.obj []) = .obj ml ∧
      ∃ s, (ml.lookup "lastUpdated").getD .null = Json.str s ∧
        parseFhirDate s = some d := by
  intro h
  simp only [metaLastUpdatedBranch, bind, Except.bind] at h
  cases hm : (l.lookup "meta").getD (.obj []) with
  | obj ml =>
      rw [hm] at h
      simp only [pyGet] at h
      split at h
      · obtain ⟨s, hs1, hs2⟩ := parseFhirDateJson_some _ _ h
        exact ⟨ml, rfl, s, hs1, hs2⟩
      · simp at h
  | null => rw [hm] at h; simp [pyGet] at h
  | bool b => rw [hm] at h; simp [pyGet] at h
  | num n => rw [hm] at h; simp [pyGet] at h
  | str s => rw [hm] at h; simp [pyGet] at h
  | arr a => rw [hm] at h; simp [pyGet] at h

/-- C4: `_parse_fhir_date` never raises on a string input (blank and
unparsable strings yield `None`), and whenever `extract_effective_date`
produces a datetime it is the parse of a string found among the
resource's candidate date values — so when no candidate parses, the
result is `None`, never a default such as the current time. -/
theorem parse_fhir_date_safety :
    (∀ s : String, ∃ od, parseFhirDateJson (.str s) = .ok od) ∧
    parseFhirDate "" = none ∧
    (∀ (r : Json) (d : PyDateTime),
      extractEffectiveDate r = .ok (some d) →
      ∃ v ∈ dateCandidateValues r, ∃ s, v = Json.str s ∧ parseFhirDate s = some d) := by
  refine ⟨fun s => ⟨parseFhirDate s, rfl⟩, rfl, ?_⟩
  intro r d h
  cases r with
  | null => simp [extractEffectiveDate] at h
  | bool b => simp [extractEffectiveDate] at h
  | num n => simp [extractEffectiveDate] at h
  | str s => simp [extractEffectiveDate] at h
  | arr a => simp [extractEffectiveDate] at h
  | obj l =>
      simp only [extractEffectiveDate] at h
      cases hf : firstTruthyField l dateFields with
      | some v =>
          rw [hf] at h
          obtain ⟨s, rfl, hs⟩ := parseFhirDateJson_some v d h
          refine ⟨Json.str s, ?_, s, rfl, hs⟩
          have hm := (firstTruthyField_mem l dateFields _ hf).1
          simp only [dateCandidateValues]
          exact List.mem_append.mpr (Or.inl (List.mem_append.mpr (Or.inl hm)))
      | none =>
          rw [hf] at h
          by_cases hpt : (pyOrJson ((l.lookup "effectivePeriod").getD .null)
              ((l.lookup "period").getD .null)).truthy = true
          · rw [if_pos hpt] at h
            simp only [bind, Except.bind] at h
            cases hp : pyOrJson ((l.lookup "effectivePeriod").getD .null)
                ((l.lookup "period").getD .null) with
            | obj pl =>
                rw [hp] at h
                simp only [pyGet] at h
                split at h
                · obtain ⟨s, hs1, hs2⟩ := parseFhirDateJson_some _ _ h
                  refine ⟨Json.str s, ?_, s, rfl, hs2⟩
                  simp only [dateCandidateValues, hp, ← hs1]
                  exact List.mem_append.mpr (Or.inl (List.mem_append.mpr
                    (Or.inr (by simp))))
                · obtain ⟨ml, hml, s, hs1, hs2⟩ := metaBranch_some l d h
                  refine ⟨Json.str s, ?_, s, rfl, hs2⟩
                  simp only [dateCandidateValues, hml, ← hs1]
                  exact List.mem_append.mpr (Or.inr (by simp))
            | null => rw [hp] at h; simp [pyGet] at h
            | bool b => rw [hp] at h; simp [pyGet] at h
            | num n => rw [hp] at h; simp [pyGet] at h
            | str s => rw [hp] at h; simp [pyGet] at h
            | arr a => rw [hp] at h; simp [pyGet] at h
          · rw [if_neg hpt] at h
            obtain ⟨ml, hml, s, hs1, hs2⟩ := metaBranch_some l d h
            refine ⟨Json.str s, ?_, s, rfl, hs2⟩
            simp only [dateCandidateValues, hml, ← hs1]
            exact List.mem_append.mpr (Or.inr (by simp))

/-- Witness for C4: an Observation with a parsable `effectiveDateTime`
yields a datetime coming from that candidate value. -/
theorem parse_fhir_date_safety_witness :
    ∃ v ∈ dateCandidateValues observationResource,
      ∃ s, v = Json.str s ∧
        parseFhirDate s = some ⟨2024, 1, 15, 10, 30, 0, 0, some 0⟩ :=
  parse_fhir_date_safety.2.2 observationResource ⟨2024, 1, 15, 10, 30, 0, 0, some 0⟩ rfl

/-- `addTotal` composes additively. -/
theorem addTotal_addTotal (m n : Nat) (st : BundleStats) :
    addTotal m (addTotal n st) = addTotal (n + m) st := by
  cases st
  simp [addTotal]
  omega

/-- Skipping a record commutes with entry counting. -/
theorem skipOne_addTotal (n : Nat) (st : BundleStats) :
    skipOne (addTotal n st) = addTotal n (skipOne st) := rfl

/-- Recording a per-entry error commutes with entry counting. -/
theorem recordEntryError_addTotal (i n : Nat) (st : BundleStats) :
    recordEntryError i (addTotal n st) = addTotal n (recordEntryError i st) := rfl

/-- The in-loop flush commutes with entry counting. -/
theorem flushIfFull_addTotal (bs : Nat) (b : List InsertRow) (n : Nat) (st : BundleStats) :
    flushIfFull bs b (addTotal n st) =
      ((flushIfFull bs b st).1, addTotal n (flushIfFull bs b st).2) := by
  by_cases h : bs ≤ b.length <;> simp [flushIfFull, h, addTotal]

/-- The end-of-stream flush commutes with entry counting. -/
theorem finalFlush_addTotal (b : List InsertRow) (n : Nat) (st : BundleStats) :
    finalFlush b (addTotal n st) = addTotal n (finalFlush b st) := by
  by_cases h : b.isEmpty <;> simp [finalFlush, h, addTotal]

/-- The streaming entry loop equals the in-memory entry loop seeded with
the full entry count: the loops' bodies are identical, only the moment
`total_entries` is counted differs. -/
theorem largeLoop_eq_smallLoop (u p : Nat) (s : Option Nat) (bs : Nat) :
    ∀ (es : List Json) (i : Nat) (batch : List InsertRow) (st : BundleStats),
      largeBundleLoop u p s bs es i batch st =
        smallBundleLoop u p s bs es i batch (addTotal es.length st) := by
  intro es
  induction es with
  | nil => intro i batch st; rfl
  | cons e rest ih =>
      intro i batch st
      simp only [largeBundleLoop, smallBundleLoop, List.length_cons]
      rw [show ({ total_entries := st.total_entries + 1,
                  records_inserted := st.records_inserted,
                  records_skipped := st.records_skipped,
                  errors := st.errors,
                  inserted := st.inserted } : BundleStats) = addTotal 1 st from rfl]
      cases hr : pyGet e "resource" with
      | error err => rfl
      | ok resource =>
          simp only []
          by_cases ht : resource.truthy = true
          · simp only [ht, Bool.not_true, Bool.false_eq_true, if_false]
            cases hrt : pyGet resource "resourceType" with
            | error err => rfl
            | ok rt =>
                simp only []
                by_cases hp : rt.eqStr "Patient" = true
                · simp only [hp, if_true]
                  rw [ih, skipOne_addTotal, addTotal_addTotal, skipOne_addTotal,
                    Nat.add_comm 1 rest.length]
                · simp only [hp, Bool.false_eq_true, if_false]
                  cases hm : mapFhirResource resource with
                  | error err =>
                      simp only []
                      rw [ih, recordEntryError_addTotal, addTotal_addTotal,
                        recordEntryError_addTotal, Nat.add_comm 1 rest.length]
                  | ok mapped =>
                      cases mapped with
                      | some r =>
                          simp only []
                          rw [ih, flushIfFull_addTotal, flushIfFull_addTotal,
                            addTotal_addTotal, Nat.add_comm 1 rest.length]
                      | none =>
                          simp only []
                          rw [ih, skipOne_addTotal, flushIfFull_addTotal,
                            skipOne_addTotal, flushIfFull_addTotal,
                            addTotal_addTotal, Nat.add_comm 1 rest.length]
          · simp only [ht]
            simp only [Bool.not_false, if_true]
            rw [ih, skipOne_addTotal, addTotal_addTotal, skipOne_addTotal,
              Nat.add_comm 1 rest.length]

/-- C1: for a generic-format document whose top-level `resourceType` is
`"Bundle"` and whose `entry` field, when present, is an array, the
in-memory and streaming paths return identical results: identical
`(recordType, effectiveDate, status, codeValue, displayText)` tuples for
every stored entry in the same order, and identical
`total_entries`/`records_inserted`/`records_skipped` counts. -/
theorem bundle_stream_memory_equiv :
    ∀ (data : Json) (u p : Nat) (s : Option Nat) (bs : Nat),
      data.find? "resourceType" = some (.str "Bundle") →
      (data.find? "entry" = none ∨ ∃ es, data.find? "entry" = some (.arr es)) →
      parseSmallBundle data u p s bs = parseLargeBundle data u p s bs ∧
      (parseSmallBundle data u p s bs).map bundleTuples =
        (parseLargeBundle data u p s bs).map bundleTuples ∧
      (parseSmallBundle data u p s bs).map bundleCounts =
        (parseLargeBundle data u p s bs).map bundleCounts := by
  intro data u p s bs hrt hent
  have main : parseSmallBundle data u p s bs = parseLargeBundle data u p s bs := by
    cases data with
    | null => simp [Json.find?] at hrt
    | bool b => simp [Json.find?] at hrt
    | num n => simp [Json.find?] at hrt
    | str s' => simp [Json.find?] at hrt
    | arr a => simp [Json.find?] at hrt
    | obj l =>
        simp only [Json.find?] at hrt hent
        simp only [parseSmallBundle, parseLargeBundle, pyGet, ijsonEntryItems, hrt]
        rcases hent with he | ⟨es, he⟩ <;>
          · simp only [pyGetD, he, Option.getD, Json.eqStr, pyLen, pyIter]
            rw [largeLoop_eq_smallLoop]
            simp [addTotal]
  exact ⟨main, by rw [main], by rw [main]⟩

/-- Witness for C1 at a concrete 2-entry bundle. -/
theorem bundle_stream_memory_equiv_witness :
    parseSmallBundle twoEntryBundle 1 2 none 100 =
      parseLargeBundle twoEntryBundle 1 2 none 100 :=
  (bundle_stream_memory_equiv twoEntryBundle 1 2 none 100 rfl
    (Or.inr ⟨_, rfl⟩)).1

/-- `combineStats` is associative. -/
theorem combineStats_assoc (a b c : EpicStats) :
    combineStats (combineStats a b) c = combineStats a (combineStats b c) := by
  cases a; cases b; cases c
  simp [combineStats, List.append_assoc, Nat.add_assoc]

/-- `zeroStats` is a right identity for `combineStats`. -/
theorem combineStats_zero (a : EpicStats) : combineStats a zeroStats = a := by
  cases a; simp [combineStats, zeroStats]

/-- The unmapped-file step is the addition of a one-field delta. -/
theorem stepUnmapped_eq (X : EpicStats) (n : String) :
    ({ X with files_skipped := X.files_skipped ++ [n]
              records_skipped := X.records_skipped + 1 } : EpicStats) =
      combineStats X ⟨0, 0, 0, 1, [], [], [n], []⟩ := by
  cases X; simp [combineStats]

/-- The mapped-file step is the addition of that file's deltas. -/
theorem stepMapped_eq (X : EpicStats) (n : String) (fr : EpicFileResult) :
    ({ X with
        files_processed := X.files_processed + 1
        records_inserted := X.records_inserted + fr.rows_inserted
        errors := X.errors ++ fr.error_rows.map (fun i => ⟨n, some i⟩)
        files_detail := X.files_detail ++ [(n, fr.row_count, fr.rows_inserted, fr.rows_skipped)]
        inserted := X.inserted ++ fr.inserted } : EpicStats) =
      combineStats X ⟨0, 1, fr.rows_inserted, 0,
        fr.error_rows.map (fun i => ⟨n, some i⟩),
        [(n, fr.row_count, fr.rows_inserted, fr.rows_skipped)], [], fr.inserted⟩ := by
  cases X; simp [combineStats]

/-- The table-file loop distributes over list append. -/
theorem epicFilesLoop_append (u p : Nat) (s : Option Nat) (bs : Nat) :
    ∀ (xs ys : List (String × List EpicRow)) (st : EpicStats),
      epicFilesLoop u p s bs (xs ++ ys) st =
        epicFilesLoop u p s bs ys (epicFilesLoop u p s bs xs st) := by
  intro xs
  induction xs with
  | nil => intro ys st; rfl
  | cons f rest ih =>
      intro ys st
      cases f with
      | mk stem rows =>
          simp only [List.cons_append, epicFilesLoop]
          cases hm : epicTableMappers.lookup (pyUpper stem) <;>
            simp only [hm] <;> exact ih ys _

/-- Already-accumulated stats factor out of the table-file loop: the loop
only adds to and appends onto its accumulator. -/
theorem epicFilesLoop_shift (u p : Nat) (s : Option Nat) (bs : Nat) :
    ∀ (ys : List (String × List EpicRow)) (a b : EpicStats),
      epicFilesLoop u p s bs ys (combineStats a b) =
        combineStats a (epicFilesLoop u p s bs ys b) := by
  intro ys
  induction ys with
  | nil => intro a b; rfl
  | cons f rest ih =>
      intro a b
      cases f with
      | mk stem rows =>
          simp only [epicFilesLoop]
          cases hm : epicTableMappers.lookup (pyUpper stem) with
          | none =>
              simp only [hm]
              rw [stepUnmapped_eq, combineStats_assoc, ih, ← stepUnmapped_eq]
          | some mapper =>
              simp only [hm]
              rw [stepMapped_eq, combineStats_assoc, ih, ← stepMapped_eq]

/-- The table-file loop from any accumulator is the accumulator plus the
loop's own contribution. -/
theorem epicFilesLoop_delta (u p : Nat) (s : Option Nat) (bs : Nat)
    (xs : List (String × List EpicRow)) (st : EpicStats) :
    epicFilesLoop u p s bs xs st =
      combineStats st (epicFilesLoop u p s bs xs zeroStats) := by
  conv_lhs => rw [← combineStats_zero st]
  exact epicFilesLoop_shift u p s bs xs st zeroStats

/-- C9: inserting a `.tsv` file with no registered mapper anywhere into a
table-directory parse records its (upper-cased) table name in
`files_skipped`, and leaves `records_inserted`, the error list, the
per-file detail and the inserted rows exactly as they were without the
file — the skip is silent at every level but the file list. -/
theorem unmapped_file_skipped_silently :
    ∀ (u p : Nat) (s : Option Nat) (bs : Nat)
      (pre post : List (String × List EpicRow)) (stem : String) (rows : List EpicRow),
      epicTableMappers.lookup (pyUpper stem) = none →
      pyUpper stem ∈ (parseEpicExport u p s bs (pre ++ (stem, rows) :: post)).files_skipped ∧
      (parseEpicExport u p s bs (pre ++ (stem, rows) :: post)).records_inserted =
        (parseEpicExport u p s bs (pre ++ post)).records_inserted ∧
      (parseEpicExport u p s bs (pre ++ (stem, rows) :: post)).errors =
        (parseEpicExport u p s bs (pre ++ post)).errors ∧
      (parseEpicExport u p s bs (pre ++ (stem, rows) :: post)).files_detail =
        (parseEpicExport u p s bs (pre ++ post)).files_detail ∧
      (parseEpicExport u p s bs (pre ++ (stem, rows) :: post)).inserted =
        (parseEpicExport u p s bs (pre ++ post)).inserted := by
  intro u p s bs pre post stem rows hm
  have h1 : parseEpicExport u p s bs (pre ++ (stem, rows) :: post) =
      combineStats
        (combineStats
          (combineStats ⟨(pre ++ (stem, rows) :: post).length, 0, 0, 0, [], [], [], []⟩
            (epicFilesLoop u p s bs pre zeroStats))
          ⟨0, 0, 0, 1, [], [], [pyUpper stem], []⟩)
        (epicFilesLoop u p s bs post zeroStats) := by
    unfold parseEpicExport
    rw [epicFilesLoop_append]
    simp only [epicFilesLoop, hm]
    rw [stepUnmapped_eq]
    rw [epicFilesLoop_delta u p s bs post]
    rw [epicFilesLoop_delta u p s bs pre]
  have h2 : parseEpicExport u p s bs (pre ++ post) =
      combineStats
        (combineStats ⟨(pre ++ post).length, 0, 0, 0, [], [], [], []⟩
          (epicFilesLoop u p s bs pre zeroStats))
        (epicFilesLoop u p s bs post zeroStats) := by
    unfold parseEpicExport
    rw [epicFilesLoop_append]
    rw [epicFilesLoop_delta u p s bs post]
    rw [epicFilesLoop_delta u p s bs pre]
  rw [h1, h2]
  refine ⟨?_, ?_, ?_, ?_, ?_⟩ <;> simp [combineStats]

/-- Witness for C9: an unknown table between two known ones is skipped
silently. -/
theorem unmapped_file_skipped_silently_witness :
    pyUpper "unknown_table" ∈
      (parseEpicExport 1 2 none 100
        [("allergy", [penicillinRow]), ("unknown_table", [penicillinRow])]).files_skipped :=
  (unmapped_file_skipped_silently 1 2 none 100 [("allergy", [penicillinRow])] []
    "unknown_table" [penicillinRow] rfl).1

/-- C10 counterexample: `records_skipped` does not mix file-level and
row-level skips — it counts only unmapped files.  A parse with one
row-level skip (blank gate on a mapped ALLERGY file, visible as
`rows_skipped = 1` in the file detail) and one unmapped file yields
`records_skipped = 1`, not `2`. -/
theorem records_skipped_mixing_counterexample :
    (parseEpicExport 1 2 none 100
      [("allergy", [blankAllergenRow]), ("unknown_table", [])]).records_skipped = 1 ∧
    (parseEpicExport 1 2 none 100
      [("allergy", [blankAllergenRow]), ("unknown_table", [])]).files_detail =
      [("ALLERGY", 1, 0, 1)] := ⟨rfl, rfl⟩

/-- C10 (amended): each unmapped `.tsv` file increments the aggregate
`records_skipped` by exactly one, and a mapped file never changes it
(row-level skips are reported only in the per-file detail) — so
`records_skipped` counts whole skipped files, not skipped rows, and does
not equal the number of skipped rows. -/
theorem records_skipped_counts_unmapped_files :
    ∀ (u p : Nat) (s : Option Nat) (bs : Nat)
      (pre post : List (String × List EpicRow)) (stem : String) (rows : List EpicRow),
      (epicTableMappers.lookup (pyUpper stem) = none →
        (parseEpicExport u p s bs (pre ++ (stem, rows) :: post)).records_skipped =
          (parseEpicExport u p s bs (pre ++ post)).records_skipped + 1) ∧
      (∀ mapper, epicTableMappers.lookup (pyUpper stem) = some mapper →
        (parseEpicExport u p s bs (pre ++ (stem, rows) :: post)).records_skipped =
          (parseEpicExport u p s bs (pre ++ post)).records_skipped) := by
  intro u p s bs pre post stem rows
  constructor
  · intro hm
    have h1 : parseEpicExport u p s bs (pre ++ (stem, rows) :: post) =
        combineStats
          (combineStats
            (combineStats ⟨(pre ++ (stem, rows) :: post).length, 0, 0, 0, [], [], [], []⟩
              (epicFilesLoop u p s bs pre zeroStats))
            ⟨0, 0, 0, 1, [], [], [pyUpper stem], []⟩)
          (epicFilesLoop u p s bs post zeroStats) := by
      unfold parseEpicExport
      rw [epicFilesLoop_append]
      simp only [epicFilesLoop, hm]
      rw [stepUnmapped_eq]
      rw [epicFilesLoop_delta u p s bs post]
      rw [epicFilesLoop_delta u p s bs pre]
    have h2 : parseEpicExport u p s bs (pre ++ post) =
        combineStats
          (combineStats ⟨(pre ++ post).length, 0, 0, 0, [], [], [], []⟩
            (epicFilesLoop u p s bs pre zeroStats))
          (epicFilesLoop u p s bs post zeroStats) := by
      unfold parseEpicExport
      rw [epicFilesLoop_append]
      rw [epicFilesLoop_delta u p s bs post]
      rw [epicFilesLoop_delta u p s bs pre]
    rw [h1, h2]
    simp [combineStats]
    omega
  · intro mapper hm
    have h1 : parseEpicExport u p s bs (pre ++ (stem, rows) :: post) =
        combineStats
          (combineStats
            (combineStats ⟨(pre ++ (stem, rows) :: post).length, 0, 0, 0, [], [], [], []⟩
              (epicFilesLoop u p s bs pre zeroStats))
            ⟨0, 1, (epicFileLoop u p s bs mapper rows 0 [] ⟨0, 0, 0, [], []⟩).rows_inserted, 0,
              (epicFileLoop u p s bs mapper rows 0 [] ⟨0, 0, 0, [], []⟩).error_rows.map
                (fun i => ⟨pyUpper stem, some i⟩),
              [(pyUpper stem,
                (epicFileLoop u p s bs mapper rows 0 [] ⟨0, 0, 0, [], []⟩).row_count,
                (epicFileLoop u p s bs mapper rows 0 [] ⟨0, 0, 0, [], []⟩).rows_inserted,
                (epicFileLoop u p s bs mapper rows 0 [] ⟨0, 0, 0, [], []⟩).rows_skipped)], [],
              (epicFileLoop u p s bs mapper rows 0 [] ⟨0, 0, 0, [], []⟩).inserted⟩)
          (epicFilesLoop u p s bs post zeroStats) := by
      unfold parseEpicExport
      rw [epicFilesLoop_append]
      simp only [epicFilesLoop, hm]
      rw [stepMapped_eq]
      rw [epicFilesLoop_delta u p s bs post]
      rw [epicFilesLoop_delta u p s bs pre]
    have h2 : parseEpicExport u p s bs (pre ++ post) =
        combineStats
          (combineStats ⟨(pre ++ post).length, 0, 0, 0, [], [], [], []⟩
            (epicFilesLoop u p s bs pre zeroStats))
          (epicFilesLoop u p s bs post zeroStats) := by
      unfold parseEpicExport
      rw [epicFilesLoop_append]
      rw [epicFilesLoop_delta u p s bs post]
      rw [epicFilesLoop_delta u p s bs pre]
    rw [h1, h2]
    simp [combineStats]

/-- Witness for C10 (amended) at a concrete directory listing. -/
theorem records_skipped_counts_unmapped_files_witness :
    (parseEpicExport 1 2 none 100
      [("allergy", [penicillinRow]), ("unknown_table", [])]).records_skipped =
      (parseEpicExport 1 2 none 100 [("allergy", [penicillinRow])]).records_skipped + 1 :=
  (records_skipped_counts_unmapped_files 1 2 none 100 [("allergy", [penicillinRow])] []
    "unknown_table" []).1 rfl

/-- Witness for C8 at a concrete database and failing dispatch. -/
theorem ingest_dispatch_failure_contract_witness :
    (ingestFileFinish
      ⟨[], ⟨"processing", none, [], none⟩⟩
      ⟨[⟨⟨"condition", "Condition", conditionResource, "fhir_r4", none, none,
          .null, .null, .null, .null, .null, .str "Hypertension"⟩, 1, 2, none⟩],
       .error "corrupt archive"⟩).1.upload.ingestion_status = "failed" :=
  (ingest_dispatch_failure_contract _ _ "corrupt archive" rfl).1


theorem append_right_ne_empty (a b : String) (hb : b ≠ "") : a ++ b ≠ "" := by
  intro h
  apply hb
  have h2 : (a ++ b).data = "".data := by rw [h]
  rw [String.data_append] at h2
  rcases List.append_eq_nil.mp h2 with ⟨_, h3⟩
  cases b
  simp_all

theorem append_left_ne_empty (a b : String) (ha : a ≠ "") : a ++ b ≠ "" := by
  intro h
  apply ha
  have h2 : (a ++ b).data = "".data := by rw [h]
  rw [String.data_append] at h2
  rcases List.append_eq_nil.mp h2 with ⟨h3, _⟩
  cases a
  simp_all

theorem firstDisplayLoop_truthy :
    ∀ (cs : List Json) (d : Json), firstDisplayLoop cs = .ok (some d) → d.truthy = true := by
  intro cs
  induction cs with
  | nil => intro d h; simp [firstDisplayLoop] at h
  | cons c rest ih =>
      intro d h
      simp only [firstDisplayLoop, bind, Except.bind] at h
      cases hg : pyGet c "display" with
      | error e => simp only [hg] at h; cases h
      | ok v =>
          simp only [hg] at h
          by_cases hv : v.truthy = true
          · rw [if_pos hv] at h
            injection h with h1
            injection h1 with h2
            subst h2
            exact hv
          · rw [if_neg hv] at h
            exact ih d h

theorem ok_empty_of_truthy {j : Json} (htr : j.truthy = true)
    (h : (Except.ok j : Py Json) = .ok (.str "")) : False := by
  injection h with h1
  subst h1
  exact absurd htr (by decide)

theorem ok_empty_lit {s : String} (hs : s ≠ "")
    (h : (Except.ok (Json.str s) : Py Json) = .ok (.str "")) : False := by
  injection h with h1
  injection h1 with h2
  exact hs h2

theorem pySliceTo100_ne (j : Json) (htr : j.truthy = true) :
    pySliceTo100 j = .ok (.str "") → False := by
  intro h
  cases j <;> simp only [pySliceTo100] at h <;> try cases h
  case str s =>
    injection h with h1
    injection h1 with h2
    have h3 : s.toList.take 100 = [] := by
      have h4 := congrArg String.data h2
      simpa using h4
    rcases List.take_eq_nil_iff.mp h3 with h5 | h5
    · exact absurd h5 (by decide)
    · have h6 : s = "" := by
        cases s
        simp_all
      subst h6
      exact absurd htr (by decide)

theorem displayEncounterCls_ne (l : List (String × Json)) :
    displayEncounterCls l = .ok (.str "") → False := by
  intro h
  simp only [displayEncounterCls] at h
  repeat' split at h
  all_goals try exact ok_empty_lit (append_right_ne_empty _ _ (by decide)) h
  all_goals try exact ok_empty_lit (by decide) h

theorem displayEncounter_ne (l : List (String × Json)) :
    displayEncounter l = .ok (.str "") → False := by
  intro h
  simp only [displayEncounter] at h
  repeat' split at h
  all_goals try cases h
  all_goals try exact absurd (by assumption : (Json.str "").truthy = true) (by decide)
  all_goals try exact ok_empty_of_truthy (by assumption) h
  all_goals try exact displayEncounterCls_ne l h

theorem displayImmunization_ne (l : List (String × Json)) :
    displayImmunization l = .ok (.str "") → False := by
  intro h
  simp only [displayImmunization] at h
  repeat' split at h
  all_goals try cases h
  all_goals try exact absurd (by assumption : (Json.str "").truthy = true) (by decide)
  all_goals try exact absurd (firstDisplayLoop_truthy _ _ (by assumption)) (by decide)
  all_goals try exact ok_empty_of_truthy (by assumption) h
  all_goals try exact ok_empty_lit (by decide) h

theorem displayCommunication_ne (l : List (String × Json)) :
    displayCommunication l = .ok (.str "") → False := by
  intro h
  simp only [displayCommunication] at h
  repeat' split at h
  all_goals try cases h
  all_goals try exact pySliceTo100_ne _ (by assumption) h
  all_goals try exact ok_empty_lit (by decide) h

theorem displayFamilyHistory_ne (l : List (String × Json)) :
    displayFamilyHistory l = .ok (.str "") → False := by
  intro h
  simp only [displayFamilyHistory] at h
  repeat' split at h
  all_goals try cases h
  all_goals try exact absurd (by assumption : (Json.str "").truthy = true) (by decide)
  all_goals try exact ok_empty_of_truthy (by assumption) h
  all_goals try exact ok_empty_lit (append_right_ne_empty _ _ (by decide)) h
  all_goals try exact ok_empty_lit (by decide) h

theorem displayImmunizationRec_ne (l : List (String × Json)) :
    displayImmunizationRec l = .ok (.str "") → False := by
  intro h
  simp only [displayImmunizationRec] at h
  repeat' split at h
  all_goals try cases h
  all_goals try exact absurd (by assumption : (Json.str "").truthy = true) (by decide)
  all_goals try exact absurd (firstDisplayLoop_truthy _ _ (by assumption)) (by decide)
  all_goals try exact ok_empty_of_truthy (by assumption) h
  all_goals try exact ok_empty_lit (by decide) h

theorem displayMedicationRequest_ne (l : List (String × Json))
    (hhole : hasBlankFirstDosageText (.obj l) = false) :
    displayMedicationRequest l = .ok (.str "") → False := by
  intro h
  simp only [displayMedicationRequest] at h
  cases hd1 : pyGet ((l.lookup "medicationReference").getD (.obj [])) "display" with
  | error e => simp only [hd1] at h; cases h
  | ok display =>
      simp only [hd1] at h
      by_cases ht1 : display.truthy = true
      · rw [if_pos ht1] at h
        exact ok_empty_of_truthy ht1 h
      · rw [if_neg ht1] at h
        cases hd2 : pyGet ((l.lookup "medicationCodeableConcept").getD (.obj [])) "text" with
        | error e => simp only [hd2] at h; cases h
        | ok text =>
            simp only [hd2] at h
            by_cases ht2 : text.truthy = true
            · rw [if_pos ht2] at h
              exact ok_empty_of_truthy ht2 h
            · rw [if_neg ht2] at h
              by_cases ht3 : ((l.lookup "dosageInstruction").getD (.arr [])).truthy = true
              · rw [if_pos ht3] at h
                cases hd3 : pyIndexZero ((l.lookup "dosageInstruction").getD (.arr [])) with
                | error e => simp only [hd3] at h; cases h
                | ok d0 =>
                    simp only [hd3] at h
                    cases d0 with
                    | obj d0l =>
                        simp only [pyGetD] at h
                        injection h with h1
                        cases hl4 : d0l.lookup "text" with
                        | none =>
                            rw [hl4] at h1
                            simp only [Option.getD] at h1
                            injection h1 with h1x
                            exact absurd h1x (by decide)
                        | some w =>
                            rw [hl4] at h1
                            simp only [Option.getD] at h1
                            subst h1
                            cases hlk : l.lookup "dosageInstruction" with
                            | none =>
                                rw [hlk] at ht3
                                exact absurd ht3 (by decide)
                            | some j =>
                                rw [hlk] at hd3 ht3
                                simp only [Option.getD] at hd3 ht3
                                cases j with
                                | arr l2 =>
                                    cases l2 with
                                    | nil => exact absurd ht3 (by decide)
                                    | cons x tl =>
                                        simp only [pyIndexZero] at hd3
                                        injection hd3 with hd3x
                                        subst hd3x
                                        simp [hasBlankFirstDosageText, Json.find?,
                                          hlk, hl4] at hhole
                                        exact absurd hhole (by decide)
                                | str s2 =>
                                    simp only [pyIndexZero] at hd3
                                    split at hd3
                                    · cases hd3
                                    · injection hd3 with hd3x
                                      cases hd3x
                                | null => simp [pyIndexZero] at hd3
                                | bool b => simp [pyIndexZero] at hd3
                                | num n => simp [pyIndexZero] at hd3
                                | obj l3 => simp [pyIndexZero] at hd3
                    | null => simp [pyGetD] at h
                    | bool b => simp [pyGetD] at h
                    | num n => simp [pyGetD] at h
                    | str s2 => simp [pyGetD] at h
                    | arr a2 => simp [pyGetD] at h
              · rw [if_neg ht3] at h
                exact ok_empty_lit (by decide) h

theorem displayKindBranch_ne (l : List (String × Json)) (t : String)
    (ht : t ≠ "") (hhole : hasBlankFirstDosageText (.obj l) = false) :
    displayKindBranch l t = .ok (.str "") → False := by
  intro h
  simp only [displayKindBranch] at h
  by_cases h1 : (t == "Encounter") = true
  · rw [if_pos h1] at h
    exact displayEncounter_ne l h
  · rw [if_neg h1] at h
    by_cases h2 : (t == "Immunization") = true
    · rw [if_pos h2] at h
      exact displayImmunization_ne l h
    · rw [if_neg h2] at h
      by_cases h3 : (t == "MedicationRequest") = true
      · rw [if_pos h3] at h
        exact displayMedicationRequest_ne l hhole h
      · rw [if_neg h3] at h
        by_cases h4 : (t == "DocumentReference") = true
        · rw [if_pos h4] at h
          by_cases hd : ((l.lookup "description").getD .null).truthy = true
          · rw [if_pos hd] at h
            exact ok_empty_of_truthy hd h
          · rw [if_neg hd] at h
            exact ok_empty_lit (by decide) h
        · rw [if_neg h4] at h
          by_cases h5 : (t == "Communication") = true
          · rw [if_pos h5] at h
            exact displayCommunication_ne l h
          · rw [if_neg h5] at h
            by_cases h6 : (t == "Appointment") = true
            · rw [if_pos h6] at h
              by_cases hd : ((l.lookup "description").getD .null).truthy = true
              · rw [if_pos hd] at h
                exact ok_empty_of_truthy hd h
              · rw [if_neg hd] at h
                exact ok_empty_lit (by decide) h
            · rw [if_neg h6] at h
              by_cases h7 : (t == "ServiceRequest") = true
              · rw [if_pos h7] at h
                cases hg : pyGet ((l.lookup "code").getD (.obj [])) "text" with
                | error e => simp only [hg] at h; cases h
                | ok text =>
                    simp only [hg] at h
                    by_cases hd : text.truthy = true
                    · rw [if_pos hd] at h
                      exact ok_empty_of_truthy hd h
                    · rw [if_neg hd] at h
                      exact ok_empty_lit (by decide) h
              · rw [if_neg h7] at h
                by_cases h8 : (t == "CarePlan") = true
                · rw [if_pos h8] at h
                  by_cases hd : ((l.lookup "title").getD .null).truthy = true
                  · rw [if_pos hd] at h
                    exact ok_empty_of_truthy hd h
                  · rw [if_neg hd] at h
                    exact ok_empty_lit (by decide) h
                · rw [if_neg h8] at h
                  by_cases h9 : (t == "FamilyMemberHistory") = true
                  · rw [if_pos h9] at h
                    exact displayFamilyHistory_ne l h
                  · rw [if_neg h9] at h
                    by_cases h10 : (t == "CareTeam") = true
                    · rw [if_pos h10] at h
                      by_cases hd : ((l.lookup "name").getD .null).truthy = true
                      · rw [if_pos hd] at h
                        exact ok_empty_of_truthy hd h
                      · rw [if_neg hd] at h
                        exact ok_empty_lit (by decide) h
                    · rw [if_neg h10] at h
                      by_cases h11 : (t == "ImmunizationRecommendation") = true
                      · rw [if_pos h11] at h
                        exact displayImmunizationRec_ne l h
                      · rw [if_neg h11] at h
                        by_cases h12 : (t == "QuestionnaireResponse") = true
                        · rw [if_pos h12] at h
                          by_cases hd : ((l.lookup "questionnaire").getD .null).truthy = true
                          · rw [if_pos hd] at h
                            exact ok_empty_lit (append_left_ne_empty _ _ (by decide)) h
                          · rw [if_neg hd] at h
                            exact ok_empty_lit (by decide) h
                        · rw [if_neg h12] at h
                          exact ok_empty_lit ht h

theorem displayCodeHead_truthy (l : List (String × Json)) (d : Json) :
    displayCodeHead l = .ok (some d) → d.truthy = true := by
  intro h
  simp only [displayCodeHead] at h
  repeat' split at h
  all_goals try cases h
  all_goals try exact firstDisplayLoop_truthy _ _ h
  all_goals try (injection h with h1; injection h1 with h2; subst h2; assumption)
  all_goals assumption

theorem buildDisplayText_str_nonempty (r : Json) (t : String) (v : Json) :
    buildDisplayText r t = .ok v → t ≠ "" →
    hasBlankFirstDosageText r = false →
    ∀ s', v = Json.str s' → s' ≠ "" := by
  intro h ht hhole s' hv he
  subst he
  rw [hv] at h
  cases r with
  | obj l =>
      simp only [buildDisplayText] at h
      cases hh : displayCodeHead l with
      | error e => simp only [hh] at h; cases h
      | ok d =>
          simp only [hh] at h
          cases d with
          | some w =>
              have := displayCodeHead_truthy l w hh
              exact ok_empty_of_truthy this h
          | none => exact displayKindBranch_ne l t ht hhole h
  | null => simp [buildDisplayText] at h
  | bool b => simp [buildDisplayText] at h
  | num n => simp [buildDisplayText] at h
  | str s2 => simp [buildDisplayText] at h
  | arr a => simp [buildDisplayText] at h

theorem codeText_head (l : List (String × Json)) (t : Json) :
    codeTextOf (.obj l) = some t → displayCodeHead l = .ok (some t) := by
  intro h
  simp only [codeTextOf] at h
  cases hco : codeOrTypeObj l with
  | obj cl =>
      simp only [hco] at h
      by_cases htr : (!(Json.obj cl).truthy) = true
      · rw [if_pos htr] at h
        cases h
      · rw [if_neg htr] at h
        by_cases htx : ((cl.lookup "text").getD .null).truthy = true
        · rw [if_pos htx] at h
          injection h with h1
          subst h1
          simp only [displayCodeHead, hco]
          rw [if_neg htr, if_pos htx]
        · rw [if_neg htx] at h
          cases h
  | null => simp only [hco] at h; cases h
  | bool b => simp only [hco] at h; cases h
  | num n => simp only [hco] at h; cases h
  | str s2 => simp only [hco] at h; cases h
  | arr a => simp only [hco] at h; cases h

theorem codeText_returned (r : Json) (t : Json) (h : codeTextOf r = some t)
    (ty : String) : buildDisplayText r ty = .ok t := by
  cases r with
  | obj l =>
      have h2 := codeText_head l t h
      simp only [buildDisplayText, h2]
  | null => simp [codeTextOf] at h
  | bool b => simp [codeTextOf] at h
  | num n => simp [codeTextOf] at h
  | str s2 => simp [codeTextOf] at h
  | arr a => simp [codeTextOf] at h

theorem supported_key_ne_empty (s : String)
    (h : (supportedResourceTypes.lookup s).isSome = true) : s ≠ "" := by
  intro he
  subst he
  exact absurd h (by decide)

theorem mapFhirResource_display (r : Json) (rec : HealthRecord) :
    mapFhirResource r = .ok (some rec) →
    buildDisplayText r rec.fhir_resource_type = .ok rec.display_text ∧
    (supportedResourceTypes.lookup rec.fhir_resource_type).isSome = true := by
  intro h
  unfold mapFhirResource at h
  simp only [bind, Except.bind, pure, Except.pure] at h
  repeat' split at h
  all_goals try cases h
  all_goals simp_all

/-- C3 (amended): for every resource accepted by `map_fhir_resource`, the
record's displayText, whenever it is a string, is non-empty — except when
the resource's first `dosageInstruction` element carries a
present-but-empty `text`, where the MedicationRequest dosage fall-through
returns that empty string; the same guarantee holds for
`build_display_text` under any non-empty resource-kind string (covering
the resources produced by the Epic mappers); and a truthy code/type text
is always returned verbatim as the displayText, so it may coincide with
the bare resource-kind string when the source data itself carries that
string. -/
theorem display_text_totality :
    (∀ (r : Json) (rec : HealthRecord),
      mapFhirResource r = .ok (some rec) →
      hasBlankFirstDosageText r = false →
      ∀ s', rec.display_text = Json.str s' → s' ≠ "") ∧
    (∀ (r : Json) (t : String) (v : Json),
      buildDisplayText r t = .ok v → t ≠ "" →
      hasBlankFirstDosageText r = false →
      ∀ s', v = Json.str s' → s' ≠ "") ∧
    (∀ (r : Json) (t : Json), codeTextOf r = some t →
      ∀ ty, buildDisplayText r ty = .ok t) := by
  refine ⟨?_, fun r t v h ht hh => buildDisplayText_str_nonempty r t v h ht hh,
          fun r t h ty => codeText_returned r t h ty⟩
  intro r rec h hh s' hs
  obtain ⟨hb, hsup⟩ := mapFhirResource_display r rec h
  exact buildDisplayText_str_nonempty r rec.fhir_resource_type rec.display_text hb
    (supported_key_ne_empty _ hsup) hh s' hs

/-- C3 counterexample: (i) a MedicationRequest whose only display source
is a present-but-empty dosage text is accepted by `map_fhir_resource`,
yet its stored displayText is the empty string — refuting "displayText is
a non-empty string"; (ii) a Condition whose informative code text happens
to be "Condition" is accepted, yet its displayText equals the bare
resource-kind string — refuting the second conjunct of the claim. -/
theorem display_text_claim_counterexample :
    (∃ rec, mapFhirResource blankDosageMedReq = .ok (some rec) ∧
      rec.display_text = Json.str "") ∧
    (∃ rec, mapFhirResource selfNamedCondition = .ok (some rec) ∧
      codeTextOf selfNamedCondition = some (.str "Condition") ∧
      rec.display_text = Json.str rec.fhir_resource_type) :=
  ⟨⟨⟨"medication", "MedicationRequest", blankDosageMedReq, "fhir_r4", none, none,
     .null, .null, .null, .null, .null, .str ""⟩, rfl, rfl⟩,
   ⟨⟨"condition", "Condition", selfNamedCondition, "fhir_r4", none, none,
     .null, .null, .null, .null, .str "Condition", .str "Condition"⟩, rfl, rfl, rfl⟩⟩

/-- Witness for C3 (amended) at the concrete Observation record. -/
theorem display_text_totality_witness :
    ∃ rec, mapFhirResource observationResource = .ok (some rec) ∧
      ∀ s', rec.display_text = Json.str s' → s' ≠ "" :=
  ⟨⟨"observation", "Observation", observationResource, "fhir_r4",
    some ⟨2024, 1, 15, 10, 30, 0, 0, some 0⟩, none,
    .null, .null, .null, .null, .str "Heart rate", .str "Heart rate"⟩, rfl,
   fun s' hs => display_text_totality.1 observationResource
     ⟨"observation", "Observation", observationResource, "fhir_r4",
      some ⟨2024, 1, 15, 10, 30, 0, 0, some 0⟩, none,
      .null, .null, .null, .null, .str "Heart rate", .str "Heart rate"⟩ rfl rfl s' hs⟩

end IngestSpec
